import Mathlib

/-!
# Verification of the wallet-analyzer analytics core

Shallow embedding of the analytics pipeline of the `wallet-analyzer`
repository (funding aggregation, clustering, path analysis, entity analysis,
anomaly detection), together with proofs and refutations of the frozen
specification claims.

Modelling conventions, used uniformly below:
* JavaScript numbers are modelled as `ℚ`.  A field that can be `undefined`
  is an `Option`.  A float `NaN` is modelled as `none` as well: every
  operation the embedded code performs on a possibly-NaN amount either
  guards it with `isNaN` (treating it like `undefined`) or coerces it with
  `|| 0` (which sends both `undefined` and `NaN` to `0`), so the
  identification is faithful for all code paths embedded here.
* JS truthiness on numbers (`0`, `NaN`, `undefined` are falsy) and strings
  (`""`, `undefined` are falsy) is made explicit through `numTruthy` /
  `strTruthy`; `x || y` is `jsOr…`.
* JS `Map`s / plain objects used as dictionaries preserve insertion order,
  so they are modelled as insertion-ordered association lists; JS `Set`s
  are insertion-ordered duplicate-free lists.
* `Array.prototype.sort` is stable (ES2019); it is modelled with the stable
  structurally-recursive `jsSort` below.
* The network/storage layers (`getEnhancedTransactions`, caching, supabase)
  are external collaborators; every function is embedded over an already
  materialized transfer list, exactly as its body processes it.
-/

/-- One entry of `parsedInfo.rawData.tokenTransfers`. -/
structure TokenXfer where
  mint : String
deriving DecidableEq, Repr

/-- The `parsedInfo` payload of an `EnrichedTransaction`
(`src/types/index.ts`).  `amount : none` models an `undefined` or `NaN`
amount. -/
structure ParsedInfo where
  sender : Option String := none
  receiver : Option String := none
  amount : Option ℚ := none
  programId : Option String := none
  tokenTransfers : List TokenXfer := []
deriving DecidableEq, Repr

/-- An `EnrichedTransaction` restricted to the fields the analytics core
reads. -/
structure Tx where
  signature : String
  blockTime : Option ℚ := none
  parsedInfo : Option ParsedInfo := none
deriving DecidableEq, Repr

/-- JS `x || 0` on a number field (`undefined`, `NaN` and `0` all map
to `0`). -/
def jsNum (q : Option ℚ) : ℚ := q.getD 0

/-- JS truthiness of a number (`undefined`, `NaN`, `0` are falsy). -/
def numTruthy (q : Option ℚ) : Bool :=
  match q with
  | none => false
  | some x => x != 0

/-- JS truthiness of a string (`undefined`, `""` are falsy). -/
def strTruthy (s : Option String) : Bool :=
  match s with
  | none => false
  | some x => x != ""

/-- JS `a || b` on string fields. -/
def jsOrStr (a b : Option String) : Option String :=
  if strTruthy a then a else b

/-- The amount of a transfer, `tx.parsedInfo?.amount`. -/
def Tx.amount? (tx : Tx) : Option ℚ :=
  match tx.parsedInfo with
  | none => none
  | some pi => pi.amount

/-- `tx.parsedInfo?.sender`. -/
def Tx.sender? (tx : Tx) : Option String :=
  match tx.parsedInfo with
  | none => none
  | some pi => pi.sender

/-- `tx.parsedInfo?.receiver`. -/
def Tx.receiver? (tx : Tx) : Option String :=
  match tx.parsedInfo with
  | none => none
  | some pi => pi.receiver

/-- `tx.parsedInfo?.programId`. -/
def Tx.programId? (tx : Tx) : Option String :=
  match tx.parsedInfo with
  | none => none
  | some pi => pi.programId

/-- Insert `x` after every element `y` with `le y x`.  Building a sorted
list by inserting the elements left to right with this function is a
stable sort: later-arriving elements land after earlier ones the
comparator ties with. -/
def insertStable (le : α → α → Bool) (x : α) : List α → List α
  | [] => [x]
  | y :: ys => if le y x then y :: insertStable le x ys else x :: y :: ys

/-- Stable sort with respect to a (total-preorder) comparator,
modelling `Array.prototype.sort`, which is stable (ES2019).  Any two
stable sorts agree on a total preorder, so this structurally recursive
implementation is the unique result the JS engine produces. -/
def jsSort (le : α → α → Bool) (l : List α) : List α :=
  l.foldl (fun acc x => insertStable le x acc) []

/-- Stable ascending sort by `(blockTime || 0)`, the comparator
`(a, b) => (a.blockTime || 0) - (b.blockTime || 0)` used throughout the
source. -/
def sortByBlockTime (ts : List Tx) : List Tx :=
  jsSort (fun a b => jsNum a.blockTime ≤ jsNum b.blockTime) ts

/-! ## Funding aggregator (`heliusApi.ts`, `getFundingAnalytics`) -/

/-- A funding source record (`FundingSource`). -/
structure FundingSource where
  address : String
  amount : ℚ
  timestamp : ℚ
  transactionSignature : String
  confidence : String
  type : String := "wallet"
  label : Option String := none
deriving DecidableEq, Repr

/-- One running-balance timeline entry. -/
structure TimelineEntry where
  timestamp : ℚ
  amount : ℚ
  balance : ℚ
  source : Option String
  isDeposit : Bool
  transactionSignature : String
deriving DecidableEq, Repr

/-- The first-deposit record of a funding analysis. -/
structure FirstDeposit where
  timestamp : ℚ
  source : Option String
  amount : ℚ
  transactionSignature : String
deriving DecidableEq, Repr

/-- The result shape of `getFundingAnalytics` / `analyzeFundingHistory`. -/
structure FundingAnalysis where
  walletAddress : String
  topSources : List FundingSource
  totalInflow : ℚ
  totalOutflow : ℚ
  netBalance : ℚ
  timelineData : List TimelineEntry
  firstDeposit : Option FirstDeposit
deriving DecidableEq, Repr

/-- The inflow filter of `getFundingAnalytics`:
`receiver === walletAddress && amount !== undefined && !isNaN(amount) && amount > 0`. -/
def isInflowTx (w : String) (tx : Tx) : Bool :=
  tx.receiver? == some w &&
    (match tx.amount? with
     | none => false
     | some a => 0 < a)

/-- The outflow filter of `getFundingAnalytics` (same shape, on `sender`). -/
def isOutflowTx (w : String) (tx : Tx) : Bool :=
  tx.sender? == some w &&
    (match tx.amount? with
     | none => false
     | some a => 0 < a)

/-- Summand of the inflow/outflow `reduce`:
`amount !== undefined && !isNaN(amount) ? amount : 0`. -/
def amountOrZero (tx : Tx) : ℚ :=
  match tx.amount? with
  | none => 0
  | some a => a

/-- `getEntityLabel` (`heliusApi.ts:927`): static known-entity lookup. -/
def getEntityLabel (address : String) : Option String :=
  if address == "MYPTXJLxnU9JoyY7eMN3anXTsCKfQr3dkXLR9RVzYhT" then some "Binance"
  else if address == "39fEpihLATXPJCQuSiXLUSiCbGchGYjeL39eyXh32KFZ" then some "FTX"
  else if address == "CEzN7mqP9xoxn2HdyW6fjEJ55YPQpF3XxMjYxsEAcS3W" then some "Coinbase"
  else if address == "Es9vMFrzaCERmJfrF4H2FYD4KCoNkY11McCe8BenwNYB" then some "USDC Contract"
  else if address == "So11111111111111111111111111111111111111112" then some "Wrapped SOL"
  else none

/-- The timeline filter of `getFundingAnalytics`:
`blockTime !== undefined && amount !== undefined && !isNaN(amount) && amount > 0`. -/
def timelineFilter (tx : Tx) : Bool :=
  tx.blockTime.isSome &&
    (match tx.amount? with
     | none => false
     | some a => 0 < a)

/-- State threaded through the timeline `map` of `getFundingAnalytics`:
running balance plus the insertion-ordered `sources` record. -/
structure TimelineState where
  runningBalance : ℚ
  sources : List (String × FundingSource)
deriving DecidableEq, Repr

/-- One step of the timeline `map` body (`heliusApi.ts:398-438`). -/
def timelineStep (w : String) (st : TimelineState) (tx : Tx) :
    TimelineState × TimelineEntry :=
  let isDeposit := tx.receiver? == some w
  let counterparty := if isDeposit then tx.sender? else tx.receiver?
  let amount := jsNum tx.amount?
  let st' :=
    if isDeposit then
      let bal := st.runningBalance + amount
      match tx.sender? with
      | none => { st with runningBalance := bal }
      | some snd =>
        match (st.sources.lookup snd) with
        | none =>
          { runningBalance := bal,
            sources := st.sources ++ [(snd,
              { address := snd, amount := amount,
                timestamp := jsNum tx.blockTime,
                transactionSignature := tx.signature,
                confidence := "medium", type := "wallet" })] }
        | some src =>
          let src' :=
            if jsNum tx.blockTime < src.timestamp then
              { src with amount := src.amount + amount,
                         timestamp := jsNum tx.blockTime,
                         transactionSignature := tx.signature }
            else
              { src with amount := src.amount + amount }
          { runningBalance := bal,
            sources := st.sources.map
              (fun p => if p.1 == snd then (p.1, src') else p) }
    else
      { st with runningBalance := st.runningBalance - amount }
  (st', { timestamp := jsNum tx.blockTime, amount := amount,
          balance := st'.runningBalance, source := counterparty,
          isDeposit := isDeposit, transactionSignature := tx.signature })

/-- The timeline `map` over the filtered, chronologically sorted
transactions, accumulating the state. -/
def timelineMap (w : String) (st : TimelineState) :
    List Tx → TimelineState × List TimelineEntry
  | [] => (st, [])
  | tx :: rest =>
    let (st', entry) := timelineStep w st tx
    let (stF, entries) := timelineMap w st' rest
    (stF, entry :: entries)

/-- Confidence assignment over the top sources
(`heliusApi.ts:446-458`): share of `totalInflow || 1`. -/
def assignConfidence (totalInflow : ℚ) (src : FundingSource) : FundingSource :=
  let denom := if totalInflow = 0 then 1 else totalInflow
  let relativeAmount := src.amount / denom
  let conf :=
    if 1/2 < relativeAmount then "high"
    else if 1/5 < relativeAmount then "medium"
    else "low"
  { src with confidence := conf, label := getEntityLabel src.address }

/-- `getFundingAnalytics` (`heliusApi.ts:339-487`) over a materialized
transaction list (the fetch is an external collaborator).  Returns `none`
when the list is empty (`transactions.length === 0 → null`).

The inflow/outflow lists and totals are computed from the list in input
order, before the in-place chronological sort that only the timeline
consumes (`heliusApi.ts:352-384`). -/
def getFundingAnalytics (w : String) (ts : List Tx) : Option FundingAnalysis :=
  if ts.length = 0 then none
  else
    let inflows := ts.filter (isInflowTx w)
    let outflows := ts.filter (isOutflowTx w)
    let totalInflow := inflows.foldl (fun sum tx => sum + amountOrZero tx) 0
    let totalOutflow := outflows.foldl (fun sum tx => sum + amountOrZero tx) 0
    let netBalance := totalInflow - totalOutflow
    let sorted := sortByBlockTime ts
    let (stF, timelineData) :=
      timelineMap w { runningBalance := 0, sources := [] }
        (sorted.filter timelineFilter)
    let topSources :=
      (jsSort (fun a b => b.amount ≤ a.amount)
        (stF.sources.map Prod.snd)).take 5
    let topSources := topSources.map (assignConfidence totalInflow)
    let firstDeposit :=
      match inflows with
      | [] => none
      | tx :: _ =>
        some { timestamp := jsNum tx.blockTime, source := tx.sender?,
               amount := jsNum tx.amount?,
               transactionSignature := tx.signature }
    some { walletAddress := w, topSources := topSources,
           totalInflow := totalInflow, totalOutflow := totalOutflow,
           netBalance := netBalance, timelineData := timelineData,
           firstDeposit := firstDeposit }

/-! ## Funding aggregator (`fundingAnalysis.ts`, `analyzeFundingHistory`)

The near-duplicate implementation: it sorts first and accumulates totals,
first deposit, sources and timeline in a single pass
(`fundingAnalysis.ts:58-167`). -/

/-- Loop state of the `analyzeFundingHistory` processing loop. -/
structure FHState where
  runningBalance : ℚ
  totalInflow : ℚ
  totalOutflow : ℚ
  firstDeposit : Option FirstDeposit
  sources : List (String × FundingSource)
  timelineData : List TimelineEntry
deriving DecidableEq, Repr

/-- One iteration of the `for (const tx of transactions)` loop of
`analyzeFundingHistory` (`fundingAnalysis.ts:78-138`); transactions with
missing `parsedInfo`, `sender`, `receiver` or `amount` are skipped. -/
def fhStep (w : String) (st : FHState) (tx : Tx) : FHState :=
  match tx.parsedInfo with
  | none => st
  | some pi =>
    match pi.sender, pi.receiver, pi.amount with
    | some sender, some receiver, some amount =>
      let isInbound := receiver == w
      let counterparty := if isInbound then sender else receiver
      let timestamp := jsNum tx.blockTime
      let st' :=
        if isInbound then
          let fd :=
            match st.firstDeposit with
            | some fd => some fd
            | none =>
              some { timestamp := timestamp, source := some sender,
                     amount := amount, transactionSignature := tx.signature }
          let sources :=
            match st.sources.lookup sender with
            | none =>
              st.sources ++ [(sender,
                { address := sender, amount := amount, timestamp := timestamp,
                  transactionSignature := tx.signature,
                  confidence := "medium", type := "unknown" })]
            | some src =>
              let src' :=
                if timestamp < src.timestamp then
                  { src with amount := src.amount + amount,
                             timestamp := timestamp,
                             transactionSignature := tx.signature }
                else { src with amount := src.amount + amount }
              st.sources.map (fun p => if p.1 == sender then (p.1, src') else p)
          { st with runningBalance := st.runningBalance + amount,
                    totalInflow := st.totalInflow + amount,
                    firstDeposit := fd, sources := sources }
        else
          { st with runningBalance := st.runningBalance - amount,
                    totalOutflow := st.totalOutflow + amount }
      { st' with timelineData := st'.timelineData ++
          [{ timestamp := timestamp, amount := amount,
             balance := st'.runningBalance, source := some counterparty,
             isDeposit := isInbound, transactionSignature := tx.signature }] }
    | _, _, _ => st

/-- Confidence heuristic of `analyzeFundingHistory`
(`fundingAnalysis.ts:149-162`). -/
def fhAssignConfidence (w : String) (ts : List Tx) (totalInflow : ℚ)
    (src : FundingSource) : FundingSource :=
  let txCount := (ts.filter (fun tx =>
    tx.sender? == some src.address && tx.receiver? == some w)).length
  let conf :=
    if 3 < txCount ∨ totalInflow * (1/2) < src.amount then "high"
    else if 1 < txCount ∨ totalInflow * (1/5) < src.amount then "medium"
    else "low"
  { src with confidence := conf }

/-- `analyzeFundingHistory` (`fundingAnalysis.ts:20-180`) over a
materialized transaction list (fetching, batching and the local-storage
cache are external collaborators). -/
def analyzeFundingHistory (w : String) (ts : List Tx) : FundingAnalysis :=
  let sorted := sortByBlockTime ts
  let st := sorted.foldl (fhStep w)
    { runningBalance := 0, totalInflow := 0, totalOutflow := 0,
      firstDeposit := none, sources := [], timelineData := [] }
  let netBalance := st.totalInflow - st.totalOutflow
  let topSources :=
    (jsSort (fun a b => b.amount ≤ a.amount) (st.sources.map Prod.snd)).take 5
  let topSources := topSources.map (fhAssignConfidence w sorted st.totalInflow)
  { walletAddress := w, topSources := topSources,
    totalInflow := st.totalInflow, totalOutflow := st.totalOutflow,
    netBalance := netBalance, timelineData := st.timelineData,
    firstDeposit := st.firstDeposit }

/-! ## Anomaly detector (`part_004`, `detectAnomalies` / `ANOMALY_PATTERNS`) -/

/-- The `TransactionMetrics` record pushed for each processed transfer. -/
structure TxMetrics where
  amount : ℚ
  timestamp : ℚ
  programId : String
  sender : String
  receiver : String
deriving DecidableEq, Repr

/-- An emitted `AnomalyDetectionResult` (its `details` payload inlined). -/
structure Anomaly where
  transactionSignature : String
  type : String
  description : String
  severity : String
  timestamp : ℚ
  amount : ℚ
  programId : String
  sender : String
  receiver : String
deriving DecidableEq, Repr

/-- A transfer survives the `!tx.blockTime || !tx.parsedInfo` skip of
`detectAnomalies` (`0` is falsy). -/
def anomalyValidTx (tx : Tx) : Bool :=
  numTruthy tx.blockTime && tx.parsedInfo.isSome

/-- The metric of a processed transfer (`part_004:94-100`); `|| 0` and
`|| ''` coerce missing fields. -/
def metricOf (tx : Tx) : TxMetrics :=
  { amount := jsNum tx.amount?,
    timestamp := jsNum tx.blockTime,
    programId := (tx.programId?).getD "",
    sender := (tx.sender?).getD "",
    receiver := (tx.receiver?).getD "" }

/-- JS `Array.prototype.slice(-n)`: the last `n` elements (the whole list
when it is shorter). -/
def lastN (n : Nat) (l : List α) : List α := l.drop (l.length - n)

/-- `Math.max(...)` over a list of amounts (only applied to nonempty
lists in the source). -/
def listMaxQ : List ℚ → ℚ
  | [] => 0
  | x :: xs => xs.foldl max x

/-- UNUSUAL_AMOUNT detector (`part_004:23-33`).  The source compares
`|amount − mean| > 3 * stdDev` with `stdDev = sqrt(variance)`; over the
reals this is equivalent to `(amount − mean)² > 9 * variance` because the
population variance (a mean of squares) is nonnegative, and the squared
form is the exact rational embedding used here. -/
def detectUnusualAmount (metrics : List TxMetrics) (cur : TxMetrics) : Bool :=
  if metrics.length < 5 then false
  else
    let amounts := metrics.map (·.amount)
    let n : ℚ := amounts.length
    let mean := amounts.foldl (· + ·) 0 / n
    let variance := (amounts.foldl (fun sq x => sq + (x - mean) ^ 2) 0) / n
    decide (9 * variance < (cur.amount - mean) ^ 2)

/-- RAPID_TRANSACTIONS detector (`part_004:39-44`): at least 5 history
records within the trailing 300 seconds (the filter is over the whole
history, so records with a later timestamp also count). -/
def detectRapid (metrics : List TxMetrics) (cur : TxMetrics) : Bool :=
  5 ≤ (metrics.filter (fun m => cur.timestamp - m.timestamp < 300)).length

/-- UNUSUAL_PROGRAM detector (`part_004:50-57`). -/
def detectUnusualProgram (metrics : List TxMetrics) (cur : TxMetrics) : Bool :=
  if metrics.length < 10 then false
  else !((lastN 10 metrics).map (·.programId)).contains cur.programId

/-- NEW_COUNTERPARTY detector (`part_004:63-71`). -/
def detectNewCounterparty (metrics : List TxMetrics) (cur : TxMetrics) : Bool :=
  if metrics.length < 5 then false
  else
    let recent := (lastN 5 metrics).flatMap (fun m => [m.sender, m.receiver])
    !recent.contains cur.sender || !recent.contains cur.receiver

/-- LARGE_VALUE_TRANSFER detector (`part_004:77-82`). -/
def detectLargeValue (metrics : List TxMetrics) (cur : TxMetrics) : Bool :=
  if metrics.length < 3 then false
  else decide (listMaxQ (metrics.map (·.amount)) * 10 < cur.amount)

/-- The anomaly record a pattern emits for the current transfer. -/
def mkAnomaly (sig : String) (ty desc sev : String) (m : TxMetrics) : Anomaly :=
  { transactionSignature := sig, type := ty, description := desc,
    severity := sev, timestamp := m.timestamp, amount := m.amount,
    programId := m.programId, sender := m.sender, receiver := m.receiver }

/-- The `ANOMALY_PATTERNS` array applied in order to one transfer against
the given history (`part_004:18-84` and the inner pattern loop of
`detectAnomalies`). -/
def anomaliesFor (metrics : List TxMetrics) (sig : String) (m : TxMetrics) :
    List Anomaly :=
  (if detectUnusualAmount metrics m then
    [mkAnomaly sig "UNUSUAL_AMOUNT"
      "Transaction amount significantly different from historical average"
      "MEDIUM" m] else []) ++
  (if detectRapid metrics m then
    [mkAnomaly sig "RAPID_TRANSACTIONS"
      "Multiple transactions in a short time period" "HIGH" m] else []) ++
  (if detectUnusualProgram metrics m then
    [mkAnomaly sig "UNUSUAL_PROGRAM"
      "Transaction using a program not seen in recent history" "MEDIUM" m]
    else []) ++
  (if detectNewCounterparty metrics m then
    [mkAnomaly sig "NEW_COUNTERPARTY" "Transaction with a new counterparty"
      "LOW" m] else []) ++
  (if detectLargeValue metrics m then
    [mkAnomaly sig "LARGE_VALUE_TRANSFER"
      "Transaction with unusually large value" "HIGH" m] else [])

/-- The main loop of `detectAnomalies` (`part_004:91-122`).  The source
pushes the metric and then evaluates each pattern against
`metrics.slice(0, -1)`, i.e. the history exactly as it was before the
push; the embedding evaluates against the pre-push history and appends the
metric afterwards, which is the same thing. -/
def detectAnomaliesGo (metrics : List TxMetrics) : List Tx → List Anomaly
  | [] => []
  | tx :: rest =>
    if anomalyValidTx tx then
      let m := metricOf tx
      anomaliesFor metrics tx.signature m ++
        detectAnomaliesGo (metrics ++ [m]) rest
    else
      detectAnomaliesGo metrics rest

/-- `detectAnomalies` (`part_004:86-125`): transfers are processed in
input order, accumulating metrics. -/
def detectAnomalies (ts : List Tx) : List Anomaly :=
  detectAnomaliesGo [] ts

/-! ## Clustering engine (`heliusApi.ts`, `detectTransactionClusters`) -/

/-- A `TransactionCluster` restricted to its data fields.  The `name` and
`detectionReason` strings are locale-dependent presentation
(`toLocaleString`, `toFixed`) and are not modelled. -/
structure TransactionCluster where
  id : String
  type : String
  transactions : List Tx
  size : Nat
  entities : List String
  riskScore : ℚ
deriving DecidableEq, Repr

/-- Insertion-ordered `Set.add`. -/
def insertUniq (l : List String) (s : String) : List String :=
  if l.contains s then l else l ++ [s]

/-- Insertion-ordered grouping `Map` update: append `tx` to the group of
`key`, creating the group at the end on first sight. -/
def insertGroup (groups : List (String × List Tx)) (key : String) (tx : Tx) :
    List (String × List Tx) :=
  match groups.lookup key with
  | none => groups ++ [(key, [tx])]
  | some _ => groups.map (fun p => if p.1 == key then (p.1, p.2 ++ [tx]) else p)

/-- Same, keyed by a rational (the rounded amount). -/
def insertGroupQ (groups : List (ℚ × List Tx)) (key : ℚ) (tx : Tx) :
    List (ℚ × List Tx) :=
  match groups.lookup key with
  | none => groups ++ [(key, [tx])]
  | some _ => groups.map (fun p => if p.1 == key then (p.1, p.2 ++ [tx]) else p)

/-- The non-focal side of a transfer (`heliusApi.ts:520-522`). -/
def counterpartyOf (w : String) (tx : Tx) : Option String :=
  if tx.sender? == some w then tx.receiver? else tx.sender?

/-- The entity set accumulated for time- and amount-based clusters
(`heliusApi.ts:589-598`): every truthy sender/receiver different from the
focal address, in first-seen order. -/
def clusterEntities (w : String) (txs : List Tx) : List String :=
  txs.foldl (fun acc tx =>
    let acc :=
      match tx.sender? with
      | some s => if s ≠ w ∧ s ≠ "" then insertUniq acc s else acc
      | none => acc
    match tx.receiver? with
    | some r => if r ≠ w ∧ r ≠ "" then insertUniq acc r else acc
    | none => acc) []

/-- Total `(amount || 0)` volume of a group. -/
def groupVolume (txs : List Tx) : ℚ :=
  txs.foldl (fun sum tx => sum + jsNum tx.amount?) 0

/-- An address-based cluster (`heliusApi.ts:533-568`). -/
def mkAddressCluster (cp : String) (txs : List Tx) : TransactionCluster :=
  let totalVolume := groupVolume txs
  let amounts := txs.map (fun tx => jsNum tx.amount?)
  let riskScore : ℚ := 30 +
    (if amounts.any (fun a => 3 ≤ amounts.count a) then 20 else 0) +
    (if 100 < totalVolume then 15 else 0)
  { id := "address-" ++ cp, type := "address-based", transactions := txs,
    size := txs.length, entities := [cp], riskScore := riskScore }

/-- The address-based pass: group by counterparty, emit groups of ≥ 3. -/
def addressClusters (w : String) (ts : List Tx) : List TransactionCluster :=
  let groups := ts.foldl (fun gs tx =>
    match counterpartyOf w tx with
    | some cp => if cp ≠ "" then insertGroup gs cp tx else gs
    | none => gs) []
  groups.filterMap (fun p =>
    if 3 ≤ p.2.length then some (mkAddressCluster p.1 p.2) else none)

/-- A time-based cluster (`heliusApi.ts:603-612`). -/
def mkTimeCluster (w : String) (startTime : ℚ) (txs : List Tx) :
    TransactionCluster :=
  { id := "time-" ++ toString startTime, type := "time-based",
    transactions := txs, size := txs.length,
    entities := clusterEntities w txs,
    riskScore := 40 + min (2 * (txs.length : ℚ)) 30 }

/-- State of the time-based `forEach` (`heliusApi.ts:574-619`). -/
structure TimePassState where
  currentCluster : List Tx
  clusterStartTime : ℚ
  clusters : List TransactionCluster
deriving DecidableEq, Repr

/-- One iteration of the time-based pass: the window is anchored at its
first transfer (`txTime - clusterStartTime <= timeWindowMs`, with
`txTime = (blockTime || 0) * 1000`); closing a window emits it when it
has at least 3 members. -/
def timePassStep (w : String) (st : TimePassState) (tx : Tx) : TimePassState :=
  if st.currentCluster.length = 0 then
    { st with currentCluster := [tx],
              clusterStartTime := jsNum tx.blockTime * 1000 }
  else if jsNum tx.blockTime * 1000 - st.clusterStartTime ≤ 600000 then
    { st with currentCluster := st.currentCluster ++ [tx] }
  else
    { currentCluster := [tx], clusterStartTime := jsNum tx.blockTime * 1000,
      clusters :=
        if 3 ≤ st.currentCluster.length then
          st.clusters ++
            [mkTimeCluster w st.clusterStartTime st.currentCluster]
        else st.clusters }

/-- The trailing last-window check of the time-based pass
(`heliusApi.ts:621-647`). -/
def timePassFinish (w : String) (st : TimePassState) :
    List TransactionCluster :=
  if 3 ≤ st.currentCluster.length then
    st.clusters ++ [mkTimeCluster w st.clusterStartTime st.currentCluster]
  else st.clusters

/-- The time-based pass over the chronologically sorted transfers,
including the final-window flush (`heliusApi.ts:570-647`). -/
def timeClusters (w : String) (ts : List Tx) : List TransactionCluster :=
  timePassFinish w ((sortByBlockTime ts).foldl (timePassStep w)
    { currentCluster := [], clusterStartTime := 0, clusters := [] })

/-- JS `Math.round`: round half toward positive infinity. -/
def jsRound (q : ℚ) : ℤ := ⌊q + 1 / 2⌋

/-- An amount-based cluster (`heliusApi.ts:667-710`). -/
def mkAmountCluster (w : String) (key : ℚ) (txs : List Tx) :
    TransactionCluster :=
  let timestamps := txs.map (fun tx => jsNum tx.blockTime)
  let minTime := match timestamps with | [] => 0 | x :: xs => xs.foldl min x
  let maxTime := listMaxQ timestamps
  let timeSpanHours := (maxTime - minTime) / 3600
  let riskScore : ℚ := 35 +
    (if timeSpanHours < 24 then 15 else 0) +
    (if timeSpanHours < 1 then 25 else 0) +
    (if 5 < txs.length then 10 else 0)
  { id := "amount-" ++ toString key, type := "amount-based",
    transactions := txs, size := txs.length,
    entities := clusterEntities w txs, riskScore := riskScore }

/-- The amount-based pass: bucket positive `(amount || 0)` values rounded
to 2 decimals, emit buckets of ≥ 3 (`heliusApi.ts:649-711`). -/
def amountClusters (w : String) (ts : List Tx) : List TransactionCluster :=
  let groups := ts.foldl (fun gs tx =>
    let amount := jsNum tx.amount?
    if 0 < amount then
      insertGroupQ gs ((jsRound (amount * 100) : ℚ) / 100) tx
    else gs) []
  groups.filterMap (fun p =>
    if 3 ≤ p.2.length then some (mkAmountCluster w p.1 p.2) else none)

/-- `detectTransactionClusters` (`heliusApi.ts:492-719`) in its
string-argument branch, over the materialized transfer list: fewer than 3
transfers yield no clusters; otherwise the three passes run and the merged
result is sorted descending by risk score. -/
def detectTransactionClusters (w : String) (ts : List Tx) :
    List TransactionCluster :=
  if ts.length < 3 then []
  else
    jsSort (fun a b => b.riskScore ≤ a.riskScore)
      (addressClusters w ts ++ timeClusters w ts ++ amountClusters w ts)

/-! ## Clustering engine, near-duplicate (`part_003`, `clusterTransactions`) -/

/-- A cluster of `clusterTransactions`; note it records no `size` field. -/
structure P3Cluster where
  id : String
  type : String
  transactions : List Tx
  entities : List String
  riskScore : ℚ
deriving DecidableEq, Repr

/-- Entity list of a `clusterTransactions` cluster:
`[...new Set(txs.flatMap(tx => [sender, receiver].filter(Boolean)))]`. -/
def p3Entities (txs : List Tx) : List String :=
  txs.foldl (fun acc tx =>
    let acc :=
      match tx.sender? with
      | some s => if s ≠ "" then insertUniq acc s else acc
      | none => acc
    match tx.receiver? with
    | some r => if r ≠ "" then insertUniq acc r else acc
    | none => acc) []

/-- Counterparty of the `clusterTransactions` address pass
(`part_003:121-122`): `sender !== receiver ? (sender || receiver) : null`. -/
def p3Counterparty (tx : Tx) : Option String :=
  if tx.sender? == tx.receiver? then none else jsOrStr tx.sender? tx.receiver?

/-- Address-based clusters of `clusterTransactions` (`part_003:117-150`):
groups of at least **2**, risk `clamp (30 + 5·n)` to `[0, 100]`. -/
def p3AddressClusters (ts : List Tx) : List P3Cluster :=
  let groups := ts.foldl (fun gs tx =>
    match p3Counterparty tx with
    | some cp => if cp ≠ "" then insertGroup gs cp tx else gs
    | none => gs) []
  groups.filterMap (fun p =>
    if 2 ≤ p.2.length then
      some { id := "", type := "address-based", transactions := p.2,
             entities := p3Entities p.2,
             riskScore := min 100 (max 0 (30 + (p.2.length : ℚ) * 5)) }
    else none)

/-- State of the `clusterTransactions` time pass (`part_003:158-187`). -/
structure P3TimeState where
  currentGroup : List Tx
  previousTime : Option ℚ
  timeGroups : List (List Tx)
deriving DecidableEq, Repr

/-- One iteration of the `clusterTransactions` time pass: transfers
without a truthy `blockTime` are skipped; the window extends while the gap
to the **previous** kept transfer is strictly under 600 seconds; a closed
window is kept when it has at least 3 members. -/
def p3TimeStep (st : P3TimeState) (tx : Tx) : P3TimeState :=
  if !numTruthy tx.blockTime then st
  else
    match st.previousTime with
    | none => { st with currentGroup := [tx],
                        previousTime := some (jsNum tx.blockTime) }
    | some prev =>
      if jsNum tx.blockTime - prev < 600 then
        { st with currentGroup := st.currentGroup ++ [tx],
                  previousTime := some (jsNum tx.blockTime) }
      else
        { currentGroup := [tx], previousTime := some (jsNum tx.blockTime),
          timeGroups :=
            if 3 ≤ st.currentGroup.length then
              st.timeGroups ++ [st.currentGroup]
            else st.timeGroups }

/-- The trailing last-group check of the `clusterTransactions` time pass
(`part_003:184-187`). -/
def p3TimeFinish (st : P3TimeState) : List (List Tx) :=
  if 3 ≤ st.currentGroup.length then st.timeGroups ++ [st.currentGroup]
  else st.timeGroups

/-- The kept time windows of `clusterTransactions`, final flush included. -/
def p3TimeGroups (ts : List Tx) : List (List Tx) :=
  p3TimeFinish ((sortByBlockTime ts).foldl p3TimeStep
    { currentGroup := [], previousTime := none, timeGroups := [] })

/-- Time-based clusters of `clusterTransactions` (`part_003:190-208`):
risk `clamp (20 + 10·n)` to `[0, 100]`. -/
def p3TimeClusters (ts : List Tx) : List P3Cluster :=
  (p3TimeGroups ts).map (fun g =>
    { id := "", type := "time-based", transactions := g,
      entities := p3Entities g,
      riskScore := min 100 (max 0 (20 + (g.length : ℚ) * 10)) })

/-- Amount-based clusters of `clusterTransactions` (`part_003:211-244`):
bucket truthy amounts rounded to 1 decimal, emit buckets of at least
**2**, risk `clamp (15 + 10·n + 2·bucketAmount)` to `[0, 100]`. -/
def p3AmountClusters (ts : List Tx) : List P3Cluster :=
  let groups := ts.foldl (fun gs tx =>
    if !numTruthy tx.amount? then gs
    else insertGroupQ gs ((jsRound (jsNum tx.amount? * 10) : ℚ) / 10) tx) []
  groups.filterMap (fun p =>
    if 2 ≤ p.2.length then
      some { id := "", type := "amount-based", transactions := p.2,
             entities := p3Entities p.2,
             riskScore :=
               min 100 (max 0 (15 + (p.2.length : ℚ) * 10 + p.1 * 2)) }
    else none)

/-- `clusterTransactions` (`part_003:108-252`): the three passes in
emission order, numbered `cluster-1`, `cluster-2`, … in push order and
then sorted descending by risk score. -/
def clusterTransactions (ts : List Tx) : List P3Cluster :=
  let all := p3AddressClusters ts ++ p3TimeClusters ts ++ p3AmountClusters ts
  let numbered := all.enum.map (fun p =>
    { p.2 with id := "cluster-" ++ toString (p.1 + 1) })
  jsSort (fun a b => b.riskScore ≤ a.riskScore) numbered

/-! ## Graph builder and path significance analyzer
(`entityLabeling.ts`, second half: `analyzeTransactionPaths`,
`buildTransactionGraph`, `findPathsFromNode`, `calculatePathSignificance`) -/

/-- Node kind, fixed at first insertion. -/
inductive NodeType where
  | wallet
  | program
  | token
deriving DecidableEq, Repr

/-- A `TransactionNode`. -/
structure TransactionNode where
  address : String
  type : NodeType
  transactions : List String
  incoming : List (String × Nat)
  outgoing : List (String × Nat)
deriving DecidableEq, Repr

/-- A `TransactionGraph`: node registry and adjacency sets, both in
insertion order. -/
structure TransactionGraph where
  nodes : List (String × TransactionNode)
  edges : List (String × List String)
deriving DecidableEq, Repr

/-- `addNodeToGraph`: insert a fresh node unless the address is already
registered (so the kind is fixed at first insertion). -/
def addNodeToGraph (g : TransactionGraph) (address : String) (ty : NodeType) :
    TransactionGraph :=
  match g.nodes.lookup address with
  | some _ => g
  | none =>
    { g with nodes := g.nodes ++ [(address,
        { address := address, type := ty, transactions := [],
          incoming := [], outgoing := [] })] }

/-- `addTransactionToNode`: record a signature against a node. -/
def addTransactionToNode (g : TransactionGraph) (address sig : String) :
    TransactionGraph :=
  { g with nodes := g.nodes.map (fun p =>
      if p.1 == address then
        (p.1, { p.2 with transactions := insertUniq p.2.transactions sig })
      else p) }

/-- Increment an interaction-count map entry. -/
def bumpCount (m : List (String × Nat)) (key : String) : List (String × Nat) :=
  match m.lookup key with
  | none => m ++ [(key, 1)]
  | some _ => m.map (fun p => if p.1 == key then (p.1, p.2 + 1) else p)

/-- `addEdgeToGraph`: record `from → to` in the adjacency set and bump the
weighted edge maps of both endpoints. -/
def addEdgeToGraph (g : TransactionGraph) (src dst : String) :
    TransactionGraph :=
  let edges :=
    match g.edges.lookup src with
    | none => g.edges ++ [(src, [dst])]
    | some _ => g.edges.map (fun p =>
        if p.1 == src then (p.1, insertUniq p.2 dst) else p)
  let nodes :=
    if (g.nodes.lookup src).isSome && (g.nodes.lookup dst).isSome then
      (g.nodes.map (fun p =>
        if p.1 == src then (p.1, { p.2 with outgoing := bumpCount p.2.outgoing dst })
        else p)).map (fun p =>
        if p.1 == dst then (p.1, { p.2 with incoming := bumpCount p.2.incoming src })
        else p)
    else g.nodes
  { nodes := nodes, edges := edges }

/-- Processing of one transfer by `buildTransactionGraph`
(`entityLabeling.ts:203-236`). -/
def graphStep (g : TransactionGraph) (tx : Tx) : TransactionGraph :=
  match tx.parsedInfo with
  | none => g
  | some pi =>
    let g := match pi.sender with
      | some s =>
        if s ≠ "" then
          addTransactionToNode (addNodeToGraph g s NodeType.wallet) s tx.signature
        else g
      | none => g
    let g := match pi.receiver with
      | some r =>
        if r ≠ "" then
          addTransactionToNode (addNodeToGraph g r NodeType.wallet) r tx.signature
        else g
      | none => g
    let g := match pi.programId with
      | some p =>
        if p ≠ "" then
          addTransactionToNode (addNodeToGraph g p NodeType.program) p tx.signature
        else g
      | none => g
    let g := pi.tokenTransfers.foldl (fun g t =>
      addTransactionToNode (addNodeToGraph g t.mint NodeType.token) t.mint
        tx.signature) g
    match pi.sender, pi.receiver with
    | some s, some r => if s ≠ "" ∧ r ≠ "" then addEdgeToGraph g s r else g
    | _, _ => g

/-- `buildTransactionGraph`. -/
def buildTransactionGraph (ts : List Tx) : TransactionGraph :=
  ts.foldl graphStep { nodes := [], edges := [] }

/-- An emitted `TransactionPath`. -/
structure TransactionPath where
  addresses : List String
  transactions : List String
  significance : ℚ
  type : String
deriving DecidableEq, Repr

/-- `getPathTransactions`: union (in first-seen order) of the signatures
touched by the path's nodes. -/
def getPathTransactions (g : TransactionGraph) (path : List String) :
    List String :=
  path.foldl (fun acc addr =>
    match g.nodes.lookup addr with
    | some node => node.transactions.foldl insertUniq acc
    | none => acc) []

/-- `calculatePathSignificance` (`entityLabeling.ts:316-353`):
`0.1·|signatures| + Σ typeWeight + Σ 0.05·(outgoing + incoming)`,
capped at 1. -/
def calculatePathSignificance (g : TransactionGraph) (path : List String) :
    ℚ :=
  let sig1 : ℚ := ((getPathTransactions g path).length : ℚ) * (1 / 10)
  let sig2 := path.foldl (fun s addr =>
    match g.nodes.lookup addr with
    | some node =>
      s + (match node.type with
           | NodeType.program => (3 : ℚ) / 10
           | NodeType.token => 2 / 10
           | NodeType.wallet => 1 / 10)
    | none => s) sig1
  let sig3 := (path.zip path.tail).foldl (fun s p =>
    match g.nodes.lookup p.1, g.nodes.lookup p.2 with
    | some src, some dst =>
      s + (((src.outgoing.lookup p.2).getD 0 : ℚ) +
           ((dst.incoming.lookup p.1).getD 0 : ℚ)) * (5 / 100)
    | _, _ => s) sig2
  min sig3 1

/-- `determinePathType` (`entityLabeling.ts:368-380`). -/
def determinePathType (g : TransactionGraph) (path : List String) : String :=
  let types := path.map (fun addr =>
    match g.nodes.lookup addr with
    | some node =>
      match node.type with
      | NodeType.wallet => "wallet"
      | NodeType.program => "program"
      | NodeType.token => "token"
    | none => "unknown")
  if types.contains "program" then "PROGRAM_INTERACTION"
  else if types.contains "token" then "TOKEN_FLOW"
  else if 3 ≤ types.length then "COMPLEX_FLOW"
  else "DIRECT_TRANSFER"

/-- The recursive DFS of `findPathsFromNode` (`entityLabeling.ts:281-310`).
The source guards with `depth > maxDepth` (`maxDepth = 3`) and recurses
with `depth + 1`; here `fuel = maxDepth + 1 − depth`, so the body runs for
depths 0..3 and `fuel = 0` is the `depth > maxDepth` bail-out.  `visited`
is maintained in lockstep with `path` (`visited.add`/`path.push` on entry,
`delete`/`pop` on backtrack), which functional state-passing renders by
extending both per recursive call. -/
def dfs (g : TransactionGraph) :
    Nat → String → List String → List String → List TransactionPath
  | 0, _, _, _ => []
  | fuel + 1, current, path, visited =>
    if visited.contains current then []
    else
      let path' := path ++ [current]
      let emitted :=
        if 1 < path'.length then
          let significance := calculatePathSignificance g path'
          if 1 / 10 < significance then
            [{ addresses := path',
               transactions := getPathTransactions g path',
               significance := significance,
               type := determinePathType g path' }]
          else []
        else []
      emitted ++ ((g.edges.lookup current).getD []).flatMap
        (fun next => dfs g fuel next path' (visited ++ [current]))

/-- `findPathsFromNode`: the DFS from a root with empty path and visited
set, depth bound 3 (fuel 4). -/
def findPathsFromNode (g : TransactionGraph) (start : String) :
    List TransactionPath :=
  dfs g 4 start [] []

/-- `analyzeTransactionPaths` (`entityLabeling.ts:181-195`): run the DFS
from every wallet-kind node and sort all paths descending by
significance. -/
def analyzeTransactionPaths (ts : List Tx) : List TransactionPath :=
  let g := buildTransactionGraph ts
  let paths := g.nodes.flatMap (fun p =>
    if p.2.type = NodeType.wallet then findPathsFromNode g p.1 else [])
  jsSort (fun a b => b.significance ≤ a.significance) paths

/-! ## Entity pattern detector (`entityAnalysis.ts`) -/

/-- An `EntityPattern`. -/
structure EntityPattern where
  type : String
  confidence : ℚ
deriving DecidableEq, Repr

/-- The `ENTITY_PATTERNS` registry: category, program ids, minimum
interaction count (`entityAnalysis.ts:16-37`). -/
def ENTITY_PATTERNS : List (String × List String × Nat) :=
  [("DEX", (["JUP4Fb2cqiRUcaTHdrPC8h2gNsA2ETXiPDD33WcGuJB",
             "9W959DqEETiGZocYWCQPaJ6sBmUzgfxXfqGeTEdp3aQP"], 10)),
   ("NFT_MARKETPLACE", (["M2mx93ekt1fmXSVkTrUL9xVFHkmME8HTUi5Cyc5aF7K",
             "hausS13jsjafwWwGqZTUQRmWyvyxn9EQpqMwV1PBBmk"], 5)),
   ("GAMING", (["GAMEFiQvN1VGoy8v1H3i9STtVfqqzRd6BnhFCTmJwz9",
             "GAMEKqXzGJ4tG4F8z4L4tG4F8z4L4tG4F8z4L4tG4F8z4"], 15)),
   ("DEFI", (["Stake11111111111111111111111111111111111111",
             "Lend11111111111111111111111111111111111111"], 20))]

/-- Hour-of-day of a unix timestamp.  The source uses
`new Date(blockTime * 1000).getHours()`, which is local-time; the
embedding fixes the UTC timezone.  (No claim below depends on the
timezone offset.) -/
def hourOfDay (t : ℚ) : ℤ := (⌊t / 3600⌋).emod 24

/-- Increment an hour-histogram entry. -/
def bumpHour (m : List (ℤ × Nat)) (key : ℤ) : List (ℤ × Nat) :=
  match m.lookup key with
  | none => m ++ [(key, 1)]
  | some _ => m.map (fun p => if p.1 == key then (p.1, p.2 + 1) else p)

/-- `detectPatterns` (`entityAnalysis.ts:79-149`). -/
def detectPatterns (ts : List Tx) : List EntityPattern :=
  let programInteractions := ts.foldl (fun m tx =>
    match tx.programId? with
    | some pid => if pid ≠ "" then bumpCount m pid else m
    | none => m) []
  let tokenInteractions := ts.foldl (fun m tx =>
    match tx.parsedInfo with
    | some pi => pi.tokenTransfers.foldl (fun m t => bumpCount m t.mint) m
    | none => m) []
  let timePatterns := ts.foldl (fun m tx =>
    if numTruthy tx.blockTime then bumpHour m (hourOfDay (jsNum tx.blockTime))
    else m) []
  let programPatterns := programInteractions.flatMap (fun pc =>
    ENTITY_PATTERNS.filterMap (fun ep =>
      if ep.2.1.contains pc.1 ∧ ep.2.2 ≤ pc.2 then
        some { type := ep.1,
               confidence := min ((pc.2 : ℚ) / (ep.2.2 : ℚ)) 1 }
      else none))
  let tokenPatterns := tokenInteractions.filterMap (fun tc =>
    if 5 ≤ tc.2 then
      some { type := "TOKEN_HOLDER", confidence := min ((tc.2 : ℚ) / 10) 1 }
    else none)
  let activeHours := (timePatterns.filter (fun p => 3 ≤ p.2)).map Prod.fst
  let timeBased :=
    if 3 ≤ activeHours.length then
      [{ type := "ACTIVE_TRADER",
         confidence := min ((activeHours.length : ℚ) / 24) 1 }]
    else []
  programPatterns ++ tokenPatterns ++ timeBased

/-- `determineEntityType` (`entityAnalysis.ts:151-172`): highest summed
confidence, first encountered wins ties, default UNKNOWN. -/
def determineEntityType (patterns : List EntityPattern) : String :=
  let typeScores := patterns.foldl (fun m p =>
    match m.lookup p.type with
    | none => m ++ [(p.type, p.confidence)]
    | some _ => m.map (fun q =>
        if q.1 == p.type then (q.1, q.2 + p.confidence) else q)) []
  (typeScores.foldl (fun acc p =>
    if acc.1 < p.2 then (p.2, p.1) else acc) ((0 : ℚ), "UNKNOWN")).2

/-- The `EntityAnalysis` record.  `firstSeen : none` models the initial
`Infinity` (no truthy `blockTime` seen). -/
structure EntityAnalysis where
  address : String
  type : String
  patterns : List EntityPattern
  riskScore : ℚ
  associatedAddresses : List String
  transactionCount : Nat
  totalVolume : ℚ
  firstSeen : Option ℚ
  lastSeen : ℚ
deriving DecidableEq, Repr

/-- `findAssociatedAddresses` (`entityAnalysis.ts:212-225`): every truthy
sender/receiver, deduplicated in first-seen order. -/
def findAssociatedAddresses (ts : List Tx) : List String :=
  ts.foldl (fun acc tx =>
    let acc :=
      match tx.sender? with
      | some s => if s ≠ "" then insertUniq acc s else acc
      | none => acc
    match tx.receiver? with
    | some r => if r ≠ "" then insertUniq acc r else acc
    | none => acc) []

/-- `calculateEntityRiskScore` (`entityAnalysis.ts:174-210`).  The
frequency tier divides by `timeSpan / 86400`; the float corner cases are
made explicit: no truthy timestamp gives `timeSpan = -Infinity` and a
`-0` rate (no tier); a zero span gives a `+Infinity` rate (top tier, as
`transactionCount ≥ 1` whenever a timestamped transfer exists). -/
def calculateEntityRiskScore (a : EntityAnalysis) : ℚ :=
  let volumeTier : ℚ :=
    if 1000 < a.totalVolume then 20
    else if 100 < a.totalVolume then 10 else 0
  let frequencyTier : ℚ :=
    match a.firstSeen with
    | none => 0
    | some fs =>
      let timeSpan := a.lastSeen - fs
      if timeSpan = 0 then (if 0 < a.transactionCount then 20 else 0)
      else if 0 < timeSpan then
        let transactionsPerDay := (a.transactionCount : ℚ) / (timeSpan / 86400)
        if 50 < transactionsPerDay then 20
        else if 20 < transactionsPerDay then 10 else 0
      else 0
  let patternRisk : ℚ := a.patterns.foldl (fun s p =>
    if p.type == "HIGH_RISK" then s + 30
    else if p.type == "MEDIUM_RISK" then s + 15 else s) 0
  let fanoutTier : ℚ :=
    if 50 < a.associatedAddresses.length then 20
    else if 20 < a.associatedAddresses.length then 10 else 0
  min (volumeTier + frequencyTier + patternRisk + fanoutTier) 100

/-- The analysis record of `analyzeEntity` just before the risk score is
computed (`entityAnalysis.ts:40-68`): metrics and patterns are filled in,
`riskScore` is still `0` and `associatedAddresses` still `[]`. -/
def analyzeEntityBase (address : String) (ts : List Tx) : EntityAnalysis :=
  let seen := ts.foldl (fun p tx =>
    if numTruthy tx.blockTime then
      ((match p.1 with
        | none => some (jsNum tx.blockTime)
        | some f => some (min f (jsNum tx.blockTime))),
       max p.2 (jsNum tx.blockTime))
    else p) ((none : Option ℚ), (0 : ℚ))
  let totalVolume := ts.foldl (fun v tx =>
    if numTruthy tx.amount? then v + jsNum tx.amount? else v) 0
  let patterns := detectPatterns ts
  { address := address, type := determineEntityType patterns,
    patterns := patterns, riskScore := 0, associatedAddresses := [],
    transactionCount := ts.length, totalVolume := totalVolume,
    firstSeen := seen.1, lastSeen := seen.2 }

/-- `analyzeEntity` (`entityAnalysis.ts:39-77`).  The source computes
`riskScore` (line 71) **before** filling `associatedAddresses` (line 74),
so the risk score is taken over an analysis whose associated-address list
is still the initial `[]`; the embedding reproduces that order. -/
def analyzeEntity (address : String) (ts : List Tx) : EntityAnalysis :=
  { analyzeEntityBase address ts with
      riskScore := calculateEntityRiskScore (analyzeEntityBase address ts),
      associatedAddresses := findAssociatedAddresses ts }

/-! ## Concrete inputs used by witnesses and counterexamples -/

/-- A single inbound transfer of 5 units to `W` from `A`. -/
def txIn1 : Tx :=
  { signature := "s", blockTime := some 1,
    parsedInfo := some { sender := some "A", receiver := some "W",
                         amount := some 5 } }

def c1ts : List Tx := [txIn1]

/-- The funding analysis `getFundingAnalytics` produces for `c1ts`. -/
def fa0 : FundingAnalysis :=
  { walletAddress := "W",
    topSources := [{ address := "A", amount := 5, timestamp := 1,
                     transactionSignature := "s", confidence := "high",
                     type := "wallet", label := none }],
    totalInflow := 5, totalOutflow := 0, netBalance := 5,
    timelineData := [{ timestamp := 1, amount := 5, balance := 5,
                       source := some "A", isDeposit := true,
                       transactionSignature := "s" }],
    firstDeposit := some { timestamp := 1, source := some "A", amount := 5,
                           transactionSignature := "s" } }

/-- C1: for every transfer list and focal address, the funding analysis
returned satisfies `netBalance = totalInflow − totalOutflow` exactly —
both in `getFundingAnalytics` and in `analyzeFundingHistory`. -/
theorem c1_netBalance (w : String) (ts : List Tx) (fa : FundingAnalysis)
    (h : getFundingAnalytics w ts = some fa) :
    fa.netBalance = fa.totalInflow - fa.totalOutflow ∧
    (analyzeFundingHistory w ts).netBalance =
      (analyzeFundingHistory w ts).totalInflow -
        (analyzeFundingHistory w ts).totalOutflow := by
  constructor
  · unfold getFundingAnalytics at h
    split at h
    · cases h
    · cases h
      rfl
  · rfl

/-- Evaluation of `getFundingAnalytics` on the concrete one-transfer
input, shared by the C1 witness. -/
theorem getFundingAnalytics_c1ts : getFundingAnalytics "W" c1ts = some fa0 := by
  norm_num [getFundingAnalytics, c1ts, fa0, txIn1, isInflowTx, isOutflowTx,
    amountOrZero, sortByBlockTime, jsSort, insertStable, timelineFilter,
    timelineMap, timelineStep, assignConfidence, getEntityLabel, jsNum,
    Tx.amount?, Tx.sender?, Tx.receiver?, List.filter_cons, List.filter_nil]
  simp

/-- C1, witness: the theorem applied to the concrete one-transfer input. -/
theorem c1_netBalance_witness :
    getFundingAnalytics "W" c1ts = some fa0 ∧
    fa0.netBalance = fa0.totalInflow - fa0.totalOutflow :=
  ⟨getFundingAnalytics_c1ts,
    (c1_netBalance "W" c1ts fa0 getFundingAnalytics_c1ts).1⟩

/-- Inbound transfer at timestamp 100, listed first. -/
def c7a : Tx :=
  { signature := "t1", blockTime := some 100,
    parsedInfo := some { sender := some "A", receiver := some "W",
                         amount := some 5 } }

/-- Inbound transfer at timestamp 50 — the earliest one — listed second. -/
def c7b : Tx :=
  { signature := "t2", blockTime := some 50,
    parsedInfo := some { sender := some "B", receiver := some "W",
                         amount := some 7 } }

def c7ts : List Tx := [c7a, c7b]

/-- C7, counterexample: on `c7ts` the earliest inbound transfer has
timestamp 50 (from `B`), but `getFundingAnalytics` reports the
first-listed inbound transfer (timestamp 100, from `A`) as the first
deposit: the inflow list is built from the unsorted input
(`heliusApi.ts:352`) and `inflows[0]` is read after the in-place sort
only reorders `transactions` (`heliusApi.ts:461`). -/
theorem c7_counterexample :
    (getFundingAnalytics "W" c7ts).map (fun fa => fa.firstDeposit) =
      some (some { timestamp := 100, source := some "A", amount := 5,
                   transactionSignature := "t1" }) ∧
    (c7ts.filter (fun tx => isInflowTx "W" tx)).map
        (fun tx => jsNum tx.blockTime) = [100, 50] ∧
    (100 : ℚ) ≠ 50 := by
  refine ⟨?_, ?_, by norm_num⟩
  · norm_num [getFundingAnalytics, c7ts, c7a, c7b, isInflowTx, isOutflowTx,
      amountOrZero, sortByBlockTime, jsSort, insertStable, timelineFilter,
      timelineMap, timelineStep, assignConfidence, getEntityLabel, jsNum,
      Tx.amount?, Tx.sender?, Tx.receiver?, List.filter_cons, List.filter_nil]
  · norm_num [c7ts, c7a, c7b, isInflowTx, jsNum, Tx.amount?, Tx.receiver?,
      List.filter_cons, List.filter_nil]

/-- C7, amended: the first deposit reported by `getFundingAnalytics` is
the **first transfer in input order** whose receiver is the focal address
with a defined, non-NaN, positive amount (its `blockTime || 0`, sender,
`amount || 0` and signature); it is the earliest such transfer only when
the input list is already sorted by timestamp. -/
theorem c7_firstDeposit_input_order (w : String) (ts : List Tx)
    (fa : FundingAnalysis) (h : getFundingAnalytics w ts = some fa) :
    fa.firstDeposit =
      (match ts.filter (isInflowTx w) with
       | [] => none
       | tx :: _ =>
         some { timestamp := jsNum tx.blockTime, source := tx.sender?,
                amount := jsNum tx.amount?,
                transactionSignature := tx.signature }) := by
  unfold getFundingAnalytics at h
  split at h
  · cases h
  · cases h
    rfl

/-- C7, witness: the amended characterization applied to the concrete
one-transfer input. -/
theorem c7_firstDeposit_witness :
    fa0.firstDeposit =
      (match c1ts.filter (isInflowTx "W") with
       | [] => none
       | tx :: _ =>
         some { timestamp := jsNum tx.blockTime, source := tx.sender?,
                amount := jsNum tx.amount?,
                transactionSignature := tx.signature }) :=
  c7_firstDeposit_input_order "W" c1ts fa0 getFundingAnalytics_c1ts

/-! ## Anomaly-detector decomposition lemmas (shared by C4, C5, C8) -/

/-- The history the anomaly detector has accumulated after processing a
transfer list: one metric per transfer surviving the validity skip, in
input order. -/
def metricsOf (ts : List Tx) : List TxMetrics :=
  (ts.filter anomalyValidTx).map metricOf

theorem metricsOf_nil : metricsOf [] = [] := rfl

theorem metricsOf_cons (t : Tx) (ts : List Tx) :
    metricsOf (t :: ts) =
      (if anomalyValidTx t then [metricOf t] else []) ++ metricsOf ts := by
  by_cases h : anomalyValidTx t <;> simp [metricsOf, List.filter_cons, h]

/-- Processing `xs ++ ys` first processes `xs`, then processes `ys`
starting from the history extended by the metrics of `xs`. -/
theorem detectAnomaliesGo_append (ms : List TxMetrics) (xs ys : List Tx) :
    detectAnomaliesGo ms (xs ++ ys) =
      detectAnomaliesGo ms xs ++ detectAnomaliesGo (ms ++ metricsOf xs) ys := by
  induction xs generalizing ms with
  | nil => simp [detectAnomaliesGo, metricsOf]
  | cons x xs ih =>
    simp only [List.cons_append, detectAnomaliesGo, List.append_eq]
    by_cases hv : anomalyValidTx x
    · rw [if_pos hv, if_pos hv, ih, metricsOf_cons]
      simp [hv, List.append_assoc]
    · rw [if_neg hv, if_neg hv, ih, metricsOf_cons]
      simp [hv]

/-- A filter is unchanged by deleting a middle element it rejects. -/
theorem filter_skip_mid (p : Tx → Bool) (pre suf : List Tx) (t : Tx)
    (h : p t = false) :
    (pre ++ t :: suf).filter p = (pre ++ suf).filter p := by
  simp [List.filter_append, List.filter_cons, h]

/-! ## C8: malformed amounts -/

/-- A transfer between `a` and `b` with the given signature, time and
(possibly missing) amount. -/
def mkXfer (sig : String) (t : ℚ) (amt : Option ℚ) : Tx :=
  { signature := sig, blockTime := some t,
    parsedInfo := some { sender := some "a", receiver := some "b",
                         amount := amt } }

/-- A transfer whose amount is missing/NaN but which passes the anomaly
detector's `blockTime`/`parsedInfo` skip. -/
def c8bad : Tx := mkXfer "m5" 5 none

def c8ts : List Tx :=
  [mkXfer "m1" 1 (some 10), mkXfer "m2" 2 (some 10), mkXfer "m3" 3 (some 10),
   mkXfer "m4" 4 (some 10), c8bad, mkXfer "m6" 6 (some 30)]

/-- `c8ts` with the malformed transfer removed. -/
def c8tsPruned : List Tx :=
  [mkXfer "m1" 1 (some 10), mkXfer "m2" 2 (some 10), mkXfer "m3" 3 (some 10),
   mkXfer "m4" 4 (some 10), mkXfer "m6" 6 (some 30)]

/-- C8, counterexample: the transfer with a missing amount is **not**
excluded from the anomaly detector's running statistics — `amount || 0`
coerces it to a fifth zero-amount sample, which makes the UNUSUAL_AMOUNT
rule fire on the final transfer; with the malformed transfer excluded the
rule's 5-sample precondition is unmet and no UNUSUAL_AMOUNT anomaly
exists. -/
theorem c8_counterexample :
    c8bad.amount? = none ∧
    ((detectAnomalies c8ts).filter
        (fun a => a.type == "UNUSUAL_AMOUNT")).length = 1 ∧
    ((detectAnomalies c8tsPruned).filter
        (fun a => a.type == "UNUSUAL_AMOUNT")).length = 0 := by
  refine ⟨rfl, ?_, ?_⟩ <;>
    norm_num [detectAnomalies, detectAnomaliesGo, c8ts, c8tsPruned, c8bad,
      mkXfer, anomalyValidTx, numTruthy, metricOf, anomaliesFor, mkAnomaly,
      detectUnusualAmount, detectRapid, detectUnusualProgram,
      detectNewCounterparty, detectLargeValue, lastN, listMaxQ, jsNum,
      Tx.amount?, Tx.sender?, Tx.receiver?, Tx.programId?,
      List.filter_cons, List.filter_nil]
  all_goals decide

/-- C8, amended: a transfer whose amount is missing/non-numeric/NaN is
excluded from the inflow/outflow sums of the funding aggregator (deleting
it leaves the totals unchanged), and no malformed transfer aborts the
computation; but in the anomaly detector such a transfer is **not**
excluded from the running statistics: if it passes the
`blockTime`/`parsedInfo` skip it contributes a metric whose amount is
coerced to `0` to the history used by all later transfers. -/
theorem c8_malformed_amounts (w : String) (pre suf : List Tx) (t : Tx)
    (ht : t.amount? = none) :
    (∀ fa fa', getFundingAnalytics w (pre ++ t :: suf) = some fa →
        getFundingAnalytics w (pre ++ suf) = some fa' →
        fa.totalInflow = fa'.totalInflow ∧
        fa.totalOutflow = fa'.totalOutflow ∧
        fa.netBalance = fa'.netBalance) ∧
    (metricOf t).amount = 0 ∧
    (anomalyValidTx t = true →
      detectAnomalies (pre ++ t :: suf) =
        detectAnomalies pre ++
          anomaliesFor (metricsOf pre) t.signature (metricOf t) ++
          detectAnomaliesGo (metricsOf pre ++ [metricOf t]) suf) := by
  have hin : isInflowTx w t = false := by
    simp [isInflowTx, ht]
  have hout : isOutflowTx w t = false := by
    simp [isOutflowTx, ht]
  refine ⟨?_, ?_, ?_⟩
  · intro fa fa' h h'
    unfold getFundingAnalytics at h h'
    split at h
    · cases h
    · split at h'
      · cases h'
      · cases h
        cases h'
        refine ⟨?_, ?_, ?_⟩ <;>
          simp only [filter_skip_mid _ _ _ _ hin, filter_skip_mid _ _ _ _ hout]
  · simp [metricOf, ht, jsNum]
  · intro hv
    show detectAnomaliesGo [] (pre ++ t :: suf) = _
    rw [detectAnomaliesGo_append]
    simp only [detectAnomaliesGo, hv, if_true, List.nil_append,
      List.append_assoc]
    rfl
/-- C8, witness: the amended statement applied at a concrete malformed
transfer following one valid transfer. -/
theorem c8_malformed_witness :
    (metricOf c8bad).amount = 0 ∧
    detectAnomalies ([mkXfer "m1" 1 (some 10)] ++ c8bad :: []) =
      detectAnomalies [mkXfer "m1" 1 (some 10)] ++
        anomaliesFor (metricsOf [mkXfer "m1" 1 (some 10)]) c8bad.signature
          (metricOf c8bad) ++
        detectAnomaliesGo (metricsOf [mkXfer "m1" 1 (some 10)] ++
          [metricOf c8bad]) [] :=
  ⟨(c8_malformed_amounts "W" [mkXfer "m1" 1 (some 10)] [] c8bad rfl).2.1,
   (c8_malformed_amounts "W" [mkXfer "m1" 1 (some 10)] [] c8bad rfl).2.2
     (by norm_num [anomalyValidTx, numTruthy, c8bad, mkXfer])⟩

/-! ## C4: processing order of the anomaly detector -/

/-- Five transfers at timestamp 1000 listed before one at timestamp 10. -/
def c4ts : List Tx :=
  [mkXfer "r1" 1000 (some 1), mkXfer "r2" 1000 (some 1),
   mkXfer "r3" 1000 (some 1), mkXfer "r4" 1000 (some 1),
   mkXfer "r5" 1000 (some 1), mkXfer "r6" 10 (some 1)]

/-- The single anomaly `detectAnomalies` reports on `c4ts`. -/
def c4anom : Anomaly :=
  { transactionSignature := "r6", type := "RAPID_TRANSACTIONS",
    description := "Multiple transactions in a short time period",
    severity := "HIGH", timestamp := 10, amount := 1, programId := "",
    sender := "a", receiver := "b" }

/-- C4, counterexample: the detector does not process in ascending
timestamp order.  On `c4ts` the RAPID_TRANSACTIONS rule fires on the
transfer with the **smallest** timestamp (10), evaluated against the
metrics of five transfers whose timestamps (1000) all lie after it; on
the timestamp-sorted list the detector reports nothing. -/
theorem c4_counterexample :
    detectAnomalies c4ts = [c4anom] ∧
    c4ts.map (fun tx => jsNum tx.blockTime) =
      [1000, 1000, 1000, 1000, 1000, 10] ∧
    detectAnomalies (sortByBlockTime c4ts) = [] := by
  refine ⟨?_, ?_, ?_⟩ <;>
    norm_num [detectAnomalies, detectAnomaliesGo, c4ts, c4anom, mkXfer,
      sortByBlockTime, jsSort, insertStable, anomalyValidTx, numTruthy,
      metricOf, anomaliesFor, mkAnomaly, detectUnusualAmount, detectRapid,
      detectUnusualProgram, detectNewCounterparty, detectLargeValue, lastN,
      listMaxQ, jsNum, Tx.amount?, Tx.sender?, Tx.receiver?, Tx.programId?]

/-- C4, amended: the anomaly detector processes the transfer list in
**input order** (it performs no sorting), and every rule applied to a
transfer is evaluated only against the metrics of the valid transfers
strictly preceding it in input order: appending a transfer never changes
the anomalies already produced, and the appended transfer is judged
exactly against the history of the preceding transfers. -/
theorem c4_input_order (pre : List Tx) (t : Tx) :
    detectAnomalies (pre ++ [t]) =
      detectAnomalies pre ++
        (if anomalyValidTx t then
          anomaliesFor (metricsOf pre) t.signature (metricOf t)
         else []) := by
  show detectAnomaliesGo [] (pre ++ [t]) = _
  rw [detectAnomaliesGo_append]
  by_cases hv : anomalyValidTx t <;>
    simp [detectAnomalies, detectAnomaliesGo, hv]

/-! ## C5: minimum-history preconditions -/

/-- Every anomaly emitted for one transfer respects the minimum-history
precondition of its rule. -/
theorem anomaliesFor_minHistory (h : List TxMetrics) (sig : String)
    (m : TxMetrics) (a : Anomaly) (ha : a ∈ anomaliesFor h sig m) :
    (a.type = "UNUSUAL_AMOUNT" → 5 ≤ h.length) ∧
    (a.type = "UNUSUAL_PROGRAM" → 10 ≤ h.length) ∧
    (a.type = "NEW_COUNTERPARTY" → 5 ≤ h.length) ∧
    (a.type = "LARGE_VALUE_TRANSFER" → 3 ≤ h.length) := by
  unfold anomaliesFor at ha
  simp only [List.mem_append, or_assoc] at ha
  rcases ha with h1 | h2 | h3 | h4 | h5
  · split at h1
    case isTrue hdet =>
      simp only [List.mem_singleton] at h1
      subst h1
      refine ⟨fun _ => ?_, fun hx => by simp [mkAnomaly] at hx,
        fun hx => by simp [mkAnomaly] at hx, fun hx => by simp [mkAnomaly] at hx⟩
      unfold detectUnusualAmount at hdet
      split at hdet
      · cases hdet
      · omega
    case isFalse => simp at h1
  · split at h2
    case isTrue =>
      simp only [List.mem_singleton] at h2
      subst h2
      exact ⟨fun hx => by simp [mkAnomaly] at hx, fun hx => by simp [mkAnomaly] at hx,
        fun hx => by simp [mkAnomaly] at hx, fun hx => by simp [mkAnomaly] at hx⟩
    case isFalse => simp at h2
  · split at h3
    case isTrue hdet =>
      simp only [List.mem_singleton] at h3
      subst h3
      refine ⟨fun hx => by simp [mkAnomaly] at hx, fun _ => ?_,
        fun hx => by simp [mkAnomaly] at hx, fun hx => by simp [mkAnomaly] at hx⟩
      unfold detectUnusualProgram at hdet
      split at hdet
      · cases hdet
      · omega
    case isFalse => simp at h3
  · split at h4
    case isTrue hdet =>
      simp only [List.mem_singleton] at h4
      subst h4
      refine ⟨fun hx => by simp [mkAnomaly] at hx, fun hx => by simp [mkAnomaly] at hx,
        fun _ => ?_, fun hx => by simp [mkAnomaly] at hx⟩
      unfold detectNewCounterparty at hdet
      split at hdet
      · cases hdet
      · omega
    case isFalse => simp at h4
  · split at h5
    case isTrue hdet =>
      simp only [List.mem_singleton] at h5
      subst h5
      refine ⟨fun hx => by simp [mkAnomaly] at hx, fun hx => by simp [mkAnomaly] at hx,
        fun hx => by simp [mkAnomaly] at hx, fun _ => ?_⟩
      unfold detectLargeValue at hdet
      split at hdet
      · cases hdet
      · omega
    case isFalse => simp at h5

/-- Every reported anomaly arises at a decomposition of the input: some
valid transfer judged against the metrics of the transfers before it. -/
theorem mem_detectAnomaliesGo (ms : List TxMetrics) (ts : List Tx)
    (a : Anomaly) (ha : a ∈ detectAnomaliesGo ms ts) :
    ∃ pre t suf, ts = pre ++ t :: suf ∧ anomalyValidTx t = true ∧
      a ∈ anomaliesFor (ms ++ metricsOf pre) t.signature (metricOf t) := by
  induction ts generalizing ms with
  | nil => simp [detectAnomaliesGo] at ha
  | cons x xs ih =>
    unfold detectAnomaliesGo at ha
    by_cases hv : anomalyValidTx x
    · rw [if_pos hv] at ha
      rcases List.mem_append.mp ha with h1 | h2
      · exact ⟨[], x, xs, by simp, hv, by simpa [metricsOf] using h1⟩
      · obtain ⟨pre, t, suf, heq, hvt, hmem⟩ := ih (ms ++ [metricOf x]) h2
        refine ⟨x :: pre, t, suf, by simp [heq], hvt, ?_⟩
        simpa [metricsOf_cons, hv, List.append_assoc] using hmem
    · rw [if_neg hv] at ha
      obtain ⟨pre, t, suf, heq, hvt, hmem⟩ := ih ms ha
      refine ⟨x :: pre, t, suf, by simp [heq], hvt, ?_⟩
      simpa [metricsOf_cons, hv] using hmem

/-- C5: an UNUSUAL_AMOUNT, UNUSUAL_PROGRAM, NEW_COUNTERPARTY or
LARGE_VALUE_TRANSFER anomaly is reported for a transfer only if at least
5, 10, 5 or 3 history records, respectively, precede that transfer. -/
theorem c5_min_history (ts : List Tx) (a : Anomaly)
    (ha : a ∈ detectAnomalies ts) :
    ∃ pre t suf, ts = pre ++ t :: suf ∧ anomalyValidTx t = true ∧
      a ∈ anomaliesFor (metricsOf pre) t.signature (metricOf t) ∧
      (a.type = "UNUSUAL_AMOUNT" → 5 ≤ (metricsOf pre).length) ∧
      (a.type = "UNUSUAL_PROGRAM" → 10 ≤ (metricsOf pre).length) ∧
      (a.type = "NEW_COUNTERPARTY" → 5 ≤ (metricsOf pre).length) ∧
      (a.type = "LARGE_VALUE_TRANSFER" → 3 ≤ (metricsOf pre).length) := by
  obtain ⟨pre, t, suf, heq, hv, hmem⟩ := mem_detectAnomaliesGo [] ts a ha
  rw [List.nil_append] at hmem
  obtain ⟨h1, h2, h3, h4⟩ := anomaliesFor_minHistory _ _ _ _ hmem
  exact ⟨pre, t, suf, heq, hv, hmem, h1, h2, h3, h4⟩

/-- Three small transfers followed by a hundredfold one. -/
def c5ts : List Tx :=
  [mkXfer "v1" 100 (some 1), mkXfer "v2" 500 (some 1),
   mkXfer "v3" 900 (some 1), mkXfer "v4" 1300 (some 100)]

/-- The LARGE_VALUE_TRANSFER anomaly `detectAnomalies` reports on
`c5ts`. -/
def c5anom : Anomaly :=
  { transactionSignature := "v4", type := "LARGE_VALUE_TRANSFER",
    description := "Transaction with unusually large value",
    severity := "HIGH", timestamp := 1300, amount := 100, programId := "",
    sender := "a", receiver := "b" }

/-- `detectAnomalies` on `c5ts` reports exactly the large-value anomaly. -/
theorem detectAnomalies_c5ts : detectAnomalies c5ts = [c5anom] := by
  norm_num [detectAnomalies, detectAnomaliesGo, c5ts, c5anom, mkXfer,
    anomalyValidTx, numTruthy, metricOf, anomaliesFor, mkAnomaly,
    detectUnusualAmount, detectRapid, detectUnusualProgram,
    detectNewCounterparty, detectLargeValue, lastN, listMaxQ, jsNum,
    Tx.amount?, Tx.sender?, Tx.receiver?, Tx.programId?]

/-- C5, witness: the theorem applied to the concrete four-transfer input
and its LARGE_VALUE_TRANSFER anomaly. -/
theorem c5_min_history_witness :
    ∃ pre t suf, c5ts = pre ++ t :: suf ∧ anomalyValidTx t = true ∧
      c5anom ∈ anomaliesFor (metricsOf pre) t.signature (metricOf t) ∧
      (c5anom.type = "UNUSUAL_AMOUNT" → 5 ≤ (metricsOf pre).length) ∧
      (c5anom.type = "UNUSUAL_PROGRAM" → 10 ≤ (metricsOf pre).length) ∧
      (c5anom.type = "NEW_COUNTERPARTY" → 5 ≤ (metricsOf pre).length) ∧
      (c5anom.type = "LARGE_VALUE_TRANSFER" → 3 ≤ (metricsOf pre).length) :=
  c5_min_history c5ts c5anom (by simp [detectAnomalies_c5ts])

/-! ## Sorting lemmas -/

theorem insertStable_perm (le : α → α → Bool) (x : α) (l : List α) :
    List.Perm (insertStable le x l) (x :: l) := by
  induction l with
  | nil => exact List.Perm.refl _
  | cons y ys ih =>
    unfold insertStable
    by_cases h : le y x
    · rw [if_pos h]
      exact (ih.cons y).trans (List.Perm.swap x y ys)
    · rw [if_neg h]

theorem jsSort_perm (le : α → α → Bool) (l : List α) :
    List.Perm (jsSort le l) l := by
  have key : ∀ (l acc : List α),
      List.Perm (l.foldl (fun acc x => insertStable le x acc) acc) (acc ++ l) := by
    intro l
    induction l with
    | nil => intro acc; simp
    | cons x xs ih =>
      intro acc
      have h1 := ih (insertStable le x acc)
      have h2 : List.Perm (insertStable le x acc ++ xs) ((x :: acc) ++ xs) :=
        (insertStable_perm le x acc).append_right xs
      have h3 : List.Perm ((x :: acc) ++ xs) (acc ++ x :: xs) :=
        List.perm_middle.symm
      exact (h1.trans h2).trans h3
  simpa using key l []

theorem mem_jsSort (le : α → α → Bool) (l : List α) (a : α) :
    a ∈ jsSort le l ↔ a ∈ l :=
  (jsSort_perm le l).mem_iff

/-! ## C2 and C10: properties of emitted paths -/

/-- The significance formula is capped at 1. -/
theorem calculatePathSignificance_le_one (g : TransactionGraph)
    (path : List String) : calculatePathSignificance g path ≤ 1 := by
  unfold calculatePathSignificance
  exact min_le_right _ _

/-- Every path the DFS emits has significance in (0.1, 1], between 2 and
4 addresses, and no repeated address, provided the invariants the DFS
maintains hold of the starting state. -/
theorem dfs_props (g : TransactionGraph) :
    ∀ (fuel : Nat) (cur : String) (path visited : List String)
      (p : TransactionPath),
      path.length + fuel ≤ 4 → path.Nodup → (∀ x ∈ path, x ∈ visited) →
      p ∈ dfs g fuel cur path visited →
      1 / 10 < p.significance ∧ p.significance ≤ 1 ∧
        2 ≤ p.addresses.length ∧ p.addresses.length ≤ 4 ∧
        p.addresses.Nodup := by
  intro fuel
  induction fuel with
  | zero =>
    intro cur path visited p _ _ _ hp
    simp [dfs] at hp
  | succ fuel ih =>
    intro cur path visited p hlen hnodup hsub hp
    unfold dfs at hp
    by_cases hvis : visited.contains cur
    · rw [if_pos hvis] at hp
      cases hp
    · rw [if_neg hvis] at hp
      have hcur : cur ∉ path := by
        intro hmem
        exact hvis (by simpa using hsub cur hmem)
      have hnodup' : (path ++ [cur]).Nodup := by
        simp [List.nodup_append, hnodup, hcur]
      rcases List.mem_append.mp hp with hemit | hrec
      · split at hemit
        next hlong =>
          have hemit2 : p ∈
              (if 1 / 10 < calculatePathSignificance g (path ++ [cur]) then
                [{ addresses := path ++ [cur],
                   transactions := getPathTransactions g (path ++ [cur]),
                   significance := calculatePathSignificance g (path ++ [cur]),
                   type := determinePathType g (path ++ [cur]) }]
              else ([] : List TransactionPath)) := hemit
          split at hemit2
          next hsig =>
            simp only [List.mem_singleton] at hemit2
            subst hemit2
            refine ⟨hsig, calculatePathSignificance_le_one g _, ?_, ?_, hnodup'⟩
            · simpa using hlong
            · simp only [List.length_append, List.length_cons,
                List.length_nil]
              omega
          next => simp at hemit2
        next => simp at hemit
      · obtain ⟨next, _, hnext⟩ := List.mem_flatMap.mp hrec
        refine ih next (path ++ [cur]) (visited ++ [cur]) p ?_ hnodup' ?_ hnext
        · simp only [List.length_append, List.length_cons, List.length_nil]
          omega
        · intro x hx
          rcases List.mem_append.mp hx with hx | hx
          · exact List.mem_append_left _ (hsub x hx)
          · exact List.mem_append_right _ hx

/-- C2: every path returned by the path significance analyzer has a
significance in [0, 1] and strictly greater than 0.1. -/
theorem c2_significance_bounds (ts : List Tx) (p : TransactionPath)
    (hp : p ∈ analyzeTransactionPaths ts) :
    0 ≤ p.significance ∧ p.significance ≤ 1 ∧ 1 / 10 < p.significance := by
  unfold analyzeTransactionPaths at hp
  simp only [mem_jsSort, List.mem_flatMap] at hp
  obtain ⟨q, _, hp⟩ := hp
  by_cases ht : q.2.type = NodeType.wallet
  · rw [if_pos ht] at hp
    have h := dfs_props (buildTransactionGraph ts) 4 q.1 [] [] p
      (by simp) (by simp) (by simp) hp
    exact ⟨le_trans (by norm_num) (le_of_lt h.1), h.2.1, h.1⟩
  · rw [if_neg ht] at hp
    cases hp

/-- C10: every path emitted by the path significance analyzer is an
ordered sequence of at least 2 and at most 4 addresses in which no
address occurs twice. -/
theorem c10_path_shape (ts : List Tx) (p : TransactionPath)
    (hp : p ∈ analyzeTransactionPaths ts) :
    2 ≤ p.addresses.length ∧ p.addresses.length ≤ 4 ∧
      p.addresses.Nodup := by
  unfold analyzeTransactionPaths at hp
  simp only [mem_jsSort, List.mem_flatMap] at hp
  obtain ⟨q, _, hp⟩ := hp
  by_cases ht : q.2.type = NodeType.wallet
  · rw [if_pos ht] at hp
    have h := dfs_props (buildTransactionGraph ts) 4 q.1 [] [] p
      (by simp) (by simp) (by simp) hp
    exact ⟨h.2.2.1, h.2.2.2.1, h.2.2.2.2⟩
  · rw [if_neg ht] at hp
    cases hp

/-- Transfer `A → B`, signature `s1`. -/
def c2txA : Tx :=
  { signature := "s1", blockTime := some 1,
    parsedInfo := some { sender := some "A", receiver := some "B",
                         amount := some 1 } }

/-- Transfer `A → B`, signature `s2`. -/
def c2txB : Tx :=
  { signature := "s2", blockTime := some 2,
    parsedInfo := some { sender := some "A", receiver := some "B",
                         amount := some 1 } }

def c2ts : List Tx := [c2txA, c2txB]

/-- The single path the analyzer emits for `c2ts`. -/
def p0 : TransactionPath :=
  { addresses := ["A", "B"], transactions := ["s1", "s2"],
    significance := 3 / 5, type := "DIRECT_TRANSFER" }

/-- The node registry of the graph built from `c2ts`. -/
def g0nodes : List (String × TransactionNode) :=
  [("A", { address := "A", type := NodeType.wallet,
           transactions := ["s1", "s2"], incoming := [],
           outgoing := [("B", 2)] }),
   ("B", { address := "B", type := NodeType.wallet,
           transactions := ["s1", "s2"], incoming := [("A", 2)],
           outgoing := [] })]

/-- The graph built from `c2ts`. -/
def g0 : TransactionGraph := { nodes := g0nodes, edges := [("A", ["B"])] }

theorem buildTransactionGraph_c2ts : buildTransactionGraph c2ts = g0 := by
  decide

/-- The significance of the one emitted path of `c2ts`. -/
theorem sig_g0 : calculatePathSignificance g0 ["A", "B"] = 3 / 5 := by
  simp [calculatePathSignificance, getPathTransactions, g0, g0nodes,
    insertUniq, List.lookup]
  norm_num [min_def]

/-- Evaluation of the path analyzer on the concrete two-transfer input. -/
theorem analyzeTransactionPaths_c2ts : analyzeTransactionPaths c2ts = [p0] := by
  have hgpt : getPathTransactions g0 ["A", "B"] = ["s1", "s2"] := by decide
  have hdpt : determinePathType g0 ["A", "B"] = "DIRECT_TRANSFER" := by decide
  have he : g0.edges = [("A", ["B"])] := rfl
  have hn : g0.nodes = g0nodes := rfl
  unfold analyzeTransactionPaths
  rw [buildTransactionGraph_c2ts]
  simp [dfs, findPathsFromNode, jsSort, insertStable, List.lookup, p0,
    g0nodes, sig_g0, hgpt, hdpt, he, hn,
    show (1 : ℚ) / 10 < 3 / 5 from by norm_num]
  norm_num [insertStable]

/-- C2, witness: the bounds theorem applied to the concrete emitted
path. -/
theorem c2_significance_witness :
    0 ≤ p0.significance ∧ p0.significance ≤ 1 ∧ 1 / 10 < p0.significance :=
  c2_significance_bounds c2ts p0 (by simp [analyzeTransactionPaths_c2ts])

/-- C10, witness: the shape theorem applied to the concrete emitted
path. -/
theorem c10_path_shape_witness :
    2 ≤ p0.addresses.length ∧ p0.addresses.length ≤ 4 ∧
      p0.addresses.Nodup :=
  c10_path_shape c2ts p0 (by simp [analyzeTransactionPaths_c2ts])

/-! ## C3: cluster sizes -/

/-- Every address-based cluster of `detectTransactionClusters` records
its member count as `size`, and has at least 3 members. -/
theorem mem_addressClusters (w : String) (ts : List Tx)
    (c : TransactionCluster) (h : c ∈ addressClusters w ts) :
    c.size = c.transactions.length ∧ 3 ≤ c.size := by
  unfold addressClusters at h
  rw [List.mem_filterMap] at h
  obtain ⟨p, _, hp⟩ := h
  split at hp
  next h3 =>
    cases hp
    exact ⟨rfl, h3⟩
  next => cases hp

/-- Every amount-based cluster of `detectTransactionClusters` records
its member count as `size`, and has at least 3 members. -/
theorem mem_amountClusters (w : String) (ts : List Tx)
    (c : TransactionCluster) (h : c ∈ amountClusters w ts) :
    c.size = c.transactions.length ∧ 3 ≤ c.size := by
  unfold amountClusters at h
  rw [List.mem_filterMap] at h
  obtain ⟨p, _, hp⟩ := h
  split at hp
  next h3 =>
    cases hp
    exact ⟨rfl, h3⟩
  next => cases hp

/-- One time-pass step only ever appends a cluster built by
`mkTimeCluster` from a window of at least 3 transfers. -/
theorem timePassStep_clusters (w : String) (st : TimePassState) (tx : Tx)
    (c : TransactionCluster) (hc : c ∈ (timePassStep w st tx).clusters) :
    c ∈ st.clusters ∨ (c.size = c.transactions.length ∧ 3 ≤ c.size) := by
  unfold timePassStep at hc
  split at hc
  · exact Or.inl hc
  · split at hc
    · exact Or.inl hc
    · simp only at hc
      split at hc
      next h3 =>
        rcases List.mem_append.mp hc with hc | hc
        · exact Or.inl hc
        · simp only [List.mem_singleton] at hc
          subst hc
          exact Or.inr ⟨rfl, h3⟩
      next => exact Or.inl hc

/-- The time-pass fold only ever appends well-formed clusters. -/
theorem timePass_fold_prop (w : String) (l : List Tx) :
    ∀ (st : TimePassState),
      (∀ c ∈ st.clusters, c.size = c.transactions.length ∧ 3 ≤ c.size) →
      ∀ c ∈ (l.foldl (timePassStep w) st).clusters,
        c.size = c.transactions.length ∧ 3 ≤ c.size := by
  induction l with
  | nil => intro st hst; exact hst
  | cons tx l ih =>
    intro st hst
    refine ih _ fun c hc => ?_
    rcases timePassStep_clusters w st tx c hc with h | h
    · exact hst c h
    · exact h

/-- Every time-based cluster of `detectTransactionClusters` records its
member count as `size`, and has at least 3 members. -/
theorem mem_timeClusters (w : String) (ts : List Tx)
    (c : TransactionCluster) (h : c ∈ timeClusters w ts) :
    c.size = c.transactions.length ∧ 3 ≤ c.size := by
  unfold timeClusters timePassFinish at h
  split at h
  next h3 =>
    rcases List.mem_append.mp h with hc | hc
    · exact timePass_fold_prop w _ _ (by simp) c hc
    · simp only [List.mem_singleton] at hc
      subst hc
      exact ⟨rfl, h3⟩
  next => exact timePass_fold_prop w _ _ (by simp) c h

/-- One `clusterTransactions` time-pass step only ever keeps a window of
at least 3 transfers. -/
theorem p3TimeStep_groups (st : P3TimeState) (tx : Tx) (g : List Tx)
    (hg : g ∈ (p3TimeStep st tx).timeGroups) :
    g ∈ st.timeGroups ∨ 3 ≤ g.length := by
  unfold p3TimeStep at hg
  split at hg
  · exact Or.inl hg
  · split at hg
    · exact Or.inl hg
    · split at hg
      · exact Or.inl hg
      · simp only at hg
        split at hg
        next h3 =>
          rcases List.mem_append.mp hg with hg | hg
          · exact Or.inl hg
          · simp only [List.mem_singleton] at hg
            subst hg
            exact Or.inr h3
        next => exact Or.inl hg

/-- Every kept time window of `clusterTransactions` has ≥ 3 members. -/
theorem p3TimeGroups_prop (ts : List Tx) (g : List Tx)
    (h : g ∈ p3TimeGroups ts) : 3 ≤ g.length := by
  unfold p3TimeGroups p3TimeFinish at h
  have key : ∀ (l : List Tx) (st : P3TimeState),
      (∀ g ∈ st.timeGroups, 3 ≤ g.length) →
      ∀ g ∈ (l.foldl p3TimeStep st).timeGroups, 3 ≤ g.length := by
    intro l
    induction l with
    | nil => intro st hst; exact hst
    | cons tx l ih =>
      intro st hst
      refine ih _ fun g hg => ?_
      rcases p3TimeStep_groups st tx g hg with h | h
      · exact hst g h
      · exact h
  split at h
  next h3 =>
    rcases List.mem_append.mp h with hg | hg
    · exact key _ _ (by simp) g hg
    · simp only [List.mem_singleton] at hg
      subst hg
      exact h3
  next => exact key _ _ (by simp) g h

/-- All clusters of the three `clusterTransactions` passes (before id
numbering) have at least 2 member transactions, 3 for time-based. -/
theorem p3_all_props (ts : List Tx) (d : P3Cluster)
    (h : d ∈ p3AddressClusters ts ++ p3TimeClusters ts ++
      p3AmountClusters ts) :
    2 ≤ d.transactions.length ∧
      (d.type = "time-based" → 3 ≤ d.transactions.length) := by
  rcases List.mem_append.mp h with hc | hc
  · rcases List.mem_append.mp hc with hc | hc
    · unfold p3AddressClusters at hc
      rw [List.mem_filterMap] at hc
      obtain ⟨p, _, hp⟩ := hc
      split at hp
      next h2 =>
        cases hp
        exact ⟨h2, fun hx => by simp at hx⟩
      next => cases hp
    · unfold p3TimeClusters at hc
      obtain ⟨g, hg, hgc⟩ := List.mem_map.mp hc
      have h3 := p3TimeGroups_prop ts g hg
      subst hgc
      exact ⟨by simpa using Nat.le_of_succ_le h3, fun _ => by simpa using h3⟩
  · unfold p3AmountClusters at hc
    rw [List.mem_filterMap] at hc
    obtain ⟨p, _, hp⟩ := hc
    split at hp
    next h2 =>
      cases hp
      exact ⟨h2, fun hx => by simp at hx⟩
    next => cases hp

/-- C3, amended: every cluster emitted by `detectTransactionClusters`
has `size` equal to the number of its member transactions and at least 3
members; the near-duplicate `clusterTransactions` records no size field
and emits address- and amount-based clusters from only **2** members
(time-based windows still require 3). -/
theorem c3_cluster_sizes (w : String) (ts ts' : List Tx)
    (c : TransactionCluster) (c' : P3Cluster)
    (h : c ∈ detectTransactionClusters w ts)
    (h' : c' ∈ clusterTransactions ts') :
    (c.size = c.transactions.length ∧ 3 ≤ c.size) ∧
    (2 ≤ c'.transactions.length ∧
      (c'.type = "time-based" → 3 ≤ c'.transactions.length)) := by
  constructor
  · unfold detectTransactionClusters at h
    split at h
    · cases h
    · rw [mem_jsSort] at h
      rcases List.mem_append.mp h with hc | hc
      · rcases List.mem_append.mp hc with hc | hc
        · exact mem_addressClusters w ts c hc
        · exact mem_timeClusters w ts c hc
      · exact mem_amountClusters w ts c hc
  · unfold clusterTransactions at h'
    rw [mem_jsSort] at h'
    obtain ⟨q, hq, hid⟩ := List.mem_map.mp h'
    have hq' : q.2 ∈ p3AddressClusters ts' ++ p3TimeClusters ts' ++
        p3AmountClusters ts' := by
      have := List.mem_map_of_mem Prod.snd hq
      rwa [List.enum_map_snd] at this
    have htr : c'.transactions = q.2.transactions := by
      rw [← hid]
    have hty : c'.type = q.2.type := by
      rw [← hid]
    have hprops := p3_all_props ts' q.2 hq'
    rw [← htr] at hprops
    rw [← hty] at hprops
    exact hprops

/-- Two transfers `A → B`. -/
def c3t1 : Tx :=
  { signature := "u1", blockTime := some 100,
    parsedInfo := some { sender := some "A", receiver := some "B" } }

def c3t2 : Tx :=
  { signature := "u2", blockTime := some 200,
    parsedInfo := some { sender := some "A", receiver := some "B" } }

def c3ts : List Tx := [c3t1, c3t2]

/-- C3, counterexample: `clusterTransactions` (cited `part_003`) emits an
address-based cluster containing only **2** member transactions, so not
every cluster of the clustering engine meets the claimed minimum size 3
(and `clusterTransactions` clusters record no `size` field at all). -/
theorem c3_counterexample :
    (clusterTransactions c3ts).map
      (fun c => (c.type, c.transactions.length)) = [("address-based", 2)] := by
  norm_num [clusterTransactions, c3ts, c3t1, c3t2, p3AddressClusters,
    p3TimeClusters, p3AmountClusters, p3TimeGroups, p3TimeFinish,
    p3TimeStep, p3Counterparty, p3Entities, insertGroup, insertGroupQ,
    insertUniq, jsOrStr, strTruthy, numTruthy, sortByBlockTime, jsSort,
    insertStable, jsNum, jsRound, Tx.amount?, Tx.sender?, Tx.receiver?,
    List.lookup, min_def, max_def]
  all_goals decide

/-- Three transfers of 1 unit from `A` to `W` within a minute. -/
def w3t1 : Tx :=
  { signature := "w1", blockTime := some 10,
    parsedInfo := some { sender := some "A", receiver := some "W",
                         amount := some 1 } }

def w3t2 : Tx :=
  { signature := "w2", blockTime := some 20,
    parsedInfo := some { sender := some "A", receiver := some "W",
                         amount := some 1 } }

def w3t3 : Tx :=
  { signature := "w3", blockTime := some 30,
    parsedInfo := some { sender := some "A", receiver := some "W",
                         amount := some 1 } }

def w3ts : List Tx := [w3t1, w3t2, w3t3]

/-- The address-based cluster `detectTransactionClusters` emits for
`w3ts`. -/
def cAddr : TransactionCluster :=
  { id := "address-A", type := "address-based",
    transactions := [w3t1, w3t2, w3t3], size := 3, entities := ["A"],
    riskScore := 50 }

/-- The single cluster `clusterTransactions` emits for `c3ts`. -/
def cP3 : P3Cluster :=
  { id := "cluster-" ++ toString 1, type := "address-based",
    transactions := [c3t1, c3t2], entities := ["A", "B"], riskScore := 40 }

/-- Evaluation of `clusterTransactions` on `c3ts`. -/
theorem clusterTransactions_c3ts : clusterTransactions c3ts = [cP3] := by
  norm_num [clusterTransactions, c3ts, c3t1, c3t2, cP3, p3AddressClusters,
    p3TimeClusters, p3AmountClusters, p3TimeGroups, p3TimeFinish,
    p3TimeStep, p3Counterparty, p3Entities, insertGroup, insertGroupQ,
    insertUniq, jsOrStr, strTruthy, numTruthy, sortByBlockTime, jsSort,
    insertStable, jsNum, jsRound, Tx.amount?, Tx.sender?, Tx.receiver?,
    List.lookup, min_def, max_def, List.filterMap_cons, List.filterMap_nil,
    List.enum, List.enumFrom, List.foldl_cons, List.foldl_nil,
    show ("A" : String) ≠ "B" from by decide,
    show ("A" : String) ≠ "" from by decide,
    show ("B" : String) ≠ "" from by decide]
  all_goals decide

/-- C3, witness: the amended theorem applied to a concrete cluster of
each implementation. -/
theorem c3_cluster_sizes_witness :
    (cAddr.size = cAddr.transactions.length ∧ 3 ≤ cAddr.size) ∧
    (2 ≤ cP3.transactions.length ∧
      (cP3.type = "time-based" → 3 ≤ cP3.transactions.length)) := by
  refine c3_cluster_sizes "W" w3ts c3ts cAddr cP3 ?_
    (by simp [clusterTransactions_c3ts])
  unfold detectTransactionClusters
  rw [if_neg (by decide)]
  rw [mem_jsSort]
  refine List.mem_append_left _ (List.mem_append_left _ ?_)
  norm_num [addressClusters, mkAddressCluster, counterpartyOf, groupVolume,
    insertGroup, w3ts, w3t1, w3t2, w3t3, cAddr, jsNum, Tx.amount?,
    Tx.sender?, Tx.receiver?, List.lookup, List.count_cons, List.count_nil,
    List.filterMap_cons, List.filterMap_nil, List.foldl_cons, List.foldl_nil,
    show ("A" : String) ≠ "W" from by decide,
    show ("A" : String) ≠ "" from by decide,
    show ("W" : String) ≠ "" from by decide]
  all_goals decide

/-! ## C6: the time-based windows -/

/-- The extension test of the `detectTransactionClusters` time pass: the
gap from the **window's first transfer** is at most 10 minutes. -/
def startWindowPred (s : ℚ) (tx : Tx) : Bool :=
  jsNum tx.blockTime * 1000 - s ≤ 600000

/-- Start-anchored windows: each window opens at a transfer and extends
while the gap to that first transfer stays within 10 minutes; the first
transfer beyond the threshold opens the next window. -/
def startWindows : List Tx → List (List Tx)
  | [] => []
  | tx :: rest =>
    (tx :: rest.takeWhile (startWindowPred (jsNum tx.blockTime * 1000))) ::
      startWindows (rest.dropWhile (startWindowPred (jsNum tx.blockTime * 1000)))
termination_by l => l.length
decreasing_by
  simp only [List.length_cons]
  have h : (rest.dropWhile
      (startWindowPred (jsNum tx.blockTime * 1000))).length ≤ rest.length :=
    (List.dropWhile_sublist (startWindowPred
      (jsNum tx.blockTime * 1000))).length_le
  omega

/-- Emit one closed window: kept only with at least 3 members, as the
time-based cluster whose risk score is `40 + min(2·size, 30)`. -/
def emitWindow (w : String) (s : ℚ) (g : List Tx) :
    List TransactionCluster :=
  if 3 ≤ g.length then
    [{ id := "time-" ++ toString s, type := "time-based",
       transactions := g, size := g.length, entities := clusterEntities w g,
       riskScore := 40 + min (2 * (g.length : ℚ)) 30 }]
  else []

/-- The clusters of a window list, each anchored at its first member. -/
def windowsClusters (w : String) : List (List Tx) → List TransactionCluster
  | [] => []
  | g :: gs =>
    (match g with
     | [] => []
     | tx :: _ => emitWindow w (jsNum tx.blockTime * 1000) g) ++
      windowsClusters w gs

/-- Chain windows: each window extends while the gap to the **previous**
transfer stays strictly under 600 seconds. -/
def gapGo (cur : List Tx) (prev : ℚ) : List Tx → List (List Tx)
  | [] => [cur]
  | tx :: rest =>
    if jsNum tx.blockTime - prev < 600 then
      gapGo (cur ++ [tx]) (jsNum tx.blockTime) rest
    else
      cur :: gapGo [tx] (jsNum tx.blockTime) rest

/-- All chain windows of a transfer list. -/
def gapWindows : List Tx → List (List Tx)
  | [] => []
  | tx :: rest => gapGo [tx] (jsNum tx.blockTime) rest

/-- `mkTimeCluster` agrees with the emission of `emitWindow`. -/
theorem mkTimeCluster_eq (w : String) (s : ℚ) (g : List Tx)
    (h : 3 ≤ g.length) :
    [mkTimeCluster w s g] = emitWindow w s g := by
  simp [mkTimeCluster, emitWindow, h]

/-- The time-pass fold, finished, produces exactly the start-anchored
windows: running it from a nonempty current window `cc` anchored at `s`
first completes that window and then chops the remainder. -/
theorem timeFold_startWindows (w : String) :
    ∀ (l cc : List Tx) (s : ℚ) (acc : List TransactionCluster),
      cc ≠ [] →
      timePassFinish w (l.foldl (timePassStep w) ⟨cc, s, acc⟩) =
        acc ++ emitWindow w s (cc ++ l.takeWhile (startWindowPred s)) ++
          windowsClusters w (startWindows (l.dropWhile (startWindowPred s))) := by
  intro l
  induction l with
  | nil =>
    intro cc s acc hcc
    simp only [List.foldl_nil, List.takeWhile_nil, List.dropWhile_nil,
      List.append_nil, timePassFinish, startWindows, windowsClusters]
    by_cases h3 : 3 ≤ cc.length
    · rw [if_pos h3, mkTimeCluster_eq w s cc h3]
    · rw [if_neg h3]
      simp [emitWindow, h3]
  | cons tx l ih =>
    intro cc s acc hcc
    have hcc0 : ¬cc.length = 0 := by
      simpa [List.length_eq_zero] using hcc
    rw [List.foldl_cons]
    by_cases hgap : jsNum tx.blockTime * 1000 - s ≤ 600000
    · have hb : startWindowPred s tx = true := by
        simp [startWindowPred, hgap]
      have hstep : timePassStep w ⟨cc, s, acc⟩ tx =
          ⟨cc ++ [tx], s, acc⟩ := by
        unfold timePassStep
        dsimp only
        rw [if_neg hcc0, if_pos hgap]
      rw [hstep, ih (cc ++ [tx]) s acc (by simp)]
      simp only [List.takeWhile_cons, List.dropWhile_cons, hb, if_true,
        List.cons_append, List.append_assoc, List.nil_append]
    · have hb : startWindowPred s tx = false := by
        simp [startWindowPred, hgap]
      have hstep : timePassStep w ⟨cc, s, acc⟩ tx =
          ⟨[tx], jsNum tx.blockTime * 1000,
           acc ++ emitWindow w s cc⟩ := by
        unfold timePassStep
        dsimp only
        rw [if_neg hcc0, if_neg hgap]
        by_cases h3 : 3 ≤ cc.length
        · rw [if_pos h3, mkTimeCluster_eq w s cc h3]
        · rw [if_neg h3]
          simp [emitWindow, h3]
      rw [hstep, ih [tx] (jsNum tx.blockTime * 1000)
        (acc ++ emitWindow w s cc) (by simp)]
      simp only [List.takeWhile_cons, List.dropWhile_cons, hb,
        Bool.false_eq_true, if_false, List.append_nil, startWindows,
        windowsClusters, List.append_assoc, List.singleton_append]

/-- The heliusApi time pass equals the start-anchored-window
characterization. -/
theorem timeClusters_eq_startWindows (w : String) (ts : List Tx) :
    timeClusters w ts = windowsClusters w (startWindows (sortByBlockTime ts)) := by
  unfold timeClusters
  cases h : sortByBlockTime ts with
  | nil => simp [timePassFinish, startWindows, windowsClusters]
  | cons tx rest =>
    rw [List.foldl_cons]
    have hstep : timePassStep w ⟨[], 0, []⟩ tx =
        ⟨[tx], jsNum tx.blockTime * 1000, []⟩ := by
      simp [timePassStep]
    rw [hstep, timeFold_startWindows w rest [tx]
      (jsNum tx.blockTime * 1000) [] (by simp)]
    simp [startWindows, windowsClusters]

/-- Transfers without a truthy `blockTime` are skipped by the
`clusterTransactions` time pass, so folding over the filtered list is the
same. -/
theorem p3_fold_filter : ∀ (l : List Tx) (st : P3TimeState),
    l.foldl p3TimeStep st =
      (l.filter (fun tx => numTruthy tx.blockTime)).foldl p3TimeStep st := by
  intro l
  induction l with
  | nil => intro st; rfl
  | cons tx l ih =>
    intro st
    by_cases h : numTruthy tx.blockTime
    · simp only [List.filter_cons, h, if_true, List.foldl_cons]
      exact ih _
    · have hstep : p3TimeStep st tx = st := by
        unfold p3TimeStep
        rw [if_pos (by simp [h])]
      simp only [List.filter_cons, List.foldl_cons, hstep]
      rw [if_neg (by simpa using h)]
      exact ih st

/-- The `clusterTransactions` time-pass fold produces exactly the kept
chain windows. -/
theorem p3Fold_gapWindows :
    ∀ (l cur : List Tx) (prev : ℚ) (tg : List (List Tx)),
      (∀ tx ∈ l, numTruthy tx.blockTime) →
      p3TimeFinish (l.foldl p3TimeStep ⟨cur, some prev, tg⟩) =
        tg ++ (gapGo cur prev l).filter (fun g => 3 ≤ g.length) := by
  intro l
  induction l with
  | nil =>
    intro cur prev tg _
    simp only [List.foldl_nil, p3TimeFinish, gapGo]
    by_cases h3 : 3 ≤ cur.length
    · rw [if_pos h3]
      simp [h3]
    · rw [if_neg h3]
      simp [h3]
  | cons tx l ih =>
    intro cur prev tg hall
    have htx : numTruthy tx.blockTime := hall tx (by simp)
    have hrest : ∀ x ∈ l, numTruthy x.blockTime :=
      fun x hx => hall x (by simp [hx])
    rw [List.foldl_cons]
    by_cases hgap : jsNum tx.blockTime - prev < 600
    · have hstep : p3TimeStep ⟨cur, some prev, tg⟩ tx =
          ⟨cur ++ [tx], some (jsNum tx.blockTime), tg⟩ := by
        unfold p3TimeStep
        dsimp only
        rw [if_neg (by simp [htx]), if_pos hgap]
      rw [hstep, ih (cur ++ [tx]) _ tg hrest]
      simp only [gapGo, hgap, if_true]
    · have hstep : p3TimeStep ⟨cur, some prev, tg⟩ tx =
          ⟨[tx], some (jsNum tx.blockTime),
           if 3 ≤ cur.length then tg ++ [cur] else tg⟩ := by
        unfold p3TimeStep
        dsimp only
        rw [if_neg (by simp [htx]), if_neg hgap]
      rw [hstep, ih [tx] _ _ hrest]
      simp only [gapGo, hgap, List.filter_cons]
      by_cases h3 : 3 ≤ cur.length
      · simp [h3, List.append_assoc]
      · simp [h3]

/-- The `clusterTransactions` time pass equals the chain-window
characterization over the timestamped transfers. -/
theorem p3TimeGroups_eq_gapWindows (ts : List Tx) :
    p3TimeGroups ts =
      (gapWindows ((sortByBlockTime ts).filter
        (fun tx => numTruthy tx.blockTime))).filter
        (fun g => 3 ≤ g.length) := by
  unfold p3TimeGroups
  rw [p3_fold_filter]
  cases h : (sortByBlockTime ts).filter (fun tx => numTruthy tx.blockTime) with
  | nil => simp [p3TimeFinish, gapWindows]
  | cons tx rest =>
    have htx : numTruthy tx.blockTime := by
      have hm : tx ∈ (sortByBlockTime ts).filter
          (fun tx => numTruthy tx.blockTime) := by
        rw [h]; simp
      simpa using List.of_mem_filter hm
    have hrest : ∀ x ∈ rest, numTruthy x.blockTime := by
      intro x hx
      have hm : x ∈ (sortByBlockTime ts).filter
          (fun tx => numTruthy tx.blockTime) := by
        rw [h]; simp [hx]
      simpa using List.of_mem_filter hm
    rw [List.foldl_cons]
    have hstep : p3TimeStep ⟨[], none, []⟩ tx =
        ⟨[tx], some (jsNum tx.blockTime), []⟩ := by
      unfold p3TimeStep
      dsimp only
      rw [if_neg (by simp [htx])]
    rw [hstep, p3Fold_gapWindows rest [tx] _ [] hrest]
    simp [gapWindows]

/-- C6, amended: after sorting by timestamp, heliusApi's time pass
extends a window while the gap to the window's **first** transfer stays
at most 10 minutes, emits it on close (over-gap transfer or end of input)
only when its size is at least 3, with risk `40 + min(2·size, 30)`;
`clusterTransactions`' near-duplicate pass extends while the gap to the
**previous** timestamped transfer is strictly under 10 minutes, keeps
windows of at least 3, and scores them `min(100, max(0, 20 + 10·size))`. -/
theorem c6_time_pass (w : String) (ts : List Tx) :
    timeClusters w ts =
      windowsClusters w (startWindows (sortByBlockTime ts)) ∧
    p3TimeClusters ts =
      ((gapWindows ((sortByBlockTime ts).filter
          (fun tx => numTruthy tx.blockTime))).filter
          (fun g => 3 ≤ g.length)).map
        (fun g => { id := "", type := "time-based", transactions := g,
                    entities := p3Entities g,
                    riskScore := min 100 (max 0 (20 + (g.length : ℚ) * 10)) }) := by
  refine ⟨timeClusters_eq_startWindows w ts, ?_⟩
  unfold p3TimeClusters
  rw [p3TimeGroups_eq_gapWindows]

/-- Modelled from the claim (C6) wording, for comparison with the code:
sort by timestamp, extend a window exactly while the gap to the
**previous** transfer stays under 10 minutes, emit on close only when
size ≥ 3, with risk score `40 + min(2·size, 30)`. -/
def claimedTimeClusters (ts : List Tx) : List (List Tx × ℚ) :=
  (gapWindows (sortByBlockTime ts)).filterMap (fun g =>
    if 3 ≤ g.length then some (g, 40 + min (2 * (g.length : ℚ)) 30)
    else none)

/-- Transfers at 0, 9 and 18 minutes: each consecutive gap is under 10
minutes, but the third transfer is more than 10 minutes from the first. -/
def x1 : Tx :=
  { signature := "x1", blockTime := some 1,
    parsedInfo := some { sender := some "A1", receiver := some "W" } }

def x2 : Tx :=
  { signature := "x2", blockTime := some 540,
    parsedInfo := some { sender := some "A2", receiver := some "W" } }

def x3 : Tx :=
  { signature := "x3", blockTime := some 1080,
    parsedInfo := some { sender := some "A3", receiver := some "W" } }

def c6ts : List Tx := [x1, x2, x3]

/-- C6, counterexample: on `c6ts` the claimed rule produces one window of
size 3 with risk 46; but `detectTransactionClusters` (which anchors the
gap at the window's **start**) emits no cluster at all, and
`clusterTransactions` (which does chain gaps) scores the window 50, not
`40 + min(2·size, 30) = 46` — so neither implementation behaves as
claimed. -/
theorem c6_counterexample :
    claimedTimeClusters c6ts = [([x1, x2, x3], 46)] ∧
    detectTransactionClusters "W" c6ts = [] ∧
    (clusterTransactions c6ts).map (fun c => (c.type, c.riskScore)) =
      [("time-based", 50)] ∧
    (46 : ℚ) ≠ 50 := by
  refine ⟨?_, ?_, ?_, by norm_num⟩
  · norm_num [claimedTimeClusters, c6ts, x1, x2, x3, gapWindows, gapGo,
      sortByBlockTime, jsSort, insertStable, jsNum, min_def,
      List.filterMap_cons, List.filterMap_nil]
  · norm_num [detectTransactionClusters, c6ts, x1, x2, x3, addressClusters,
      timeClusters, amountClusters, timePassFinish, timePassStep,
      counterpartyOf, insertGroup, insertGroupQ, jsSort, insertStable,
      sortByBlockTime, jsNum, Tx.amount?, Tx.sender?, Tx.receiver?,
      List.lookup, List.filterMap_cons, List.filterMap_nil,
      List.foldl_cons, List.foldl_nil,
      show ("A1" : String) ≠ "W" from by decide,
      show ("A2" : String) ≠ "W" from by decide,
      show ("A3" : String) ≠ "W" from by decide,
      show ("A1" : String) ≠ "" from by decide,
      show ("A2" : String) ≠ "" from by decide,
      show ("A3" : String) ≠ "" from by decide]
    all_goals decide
  · norm_num [clusterTransactions, c6ts, x1, x2, x3, p3AddressClusters,
      p3TimeClusters, p3AmountClusters, p3TimeGroups, p3TimeFinish,
      p3TimeStep, p3Counterparty, p3Entities, insertGroup, insertGroupQ,
      insertUniq, jsOrStr, strTruthy, numTruthy, sortByBlockTime, jsSort,
      insertStable, jsNum, jsRound, Tx.amount?, Tx.sender?, Tx.receiver?,
      List.lookup, min_def, max_def, List.filterMap_cons,
      List.filterMap_nil, List.enum, List.enumFrom, List.foldl_cons,
      List.foldl_nil,
      show ("A1" : String) ≠ "W" from by decide,
      show ("A2" : String) ≠ "W" from by decide,
      show ("A3" : String) ≠ "W" from by decide,
      show ("A1" : String) ≠ "" from by decide,
      show ("A2" : String) ≠ "" from by decide,
      show ("A3" : String) ≠ "" from by decide,
      show ("W" : String) ≠ "" from by decide]

/-! ## C9: the entity risk score -/

/-- Modelled from the claim (C9) wording, for comparison with the code:
the risk formula — volume tier, frequency tier, pattern bonus, fan-out
tier over the distinct counterparties — applied to the **completed**
analysis, whose `associatedAddresses` holds the distinct addresses of the
transfer list. -/
def claimedEntityRiskScore (address : String) (ts : List Tx) : ℚ :=
  calculateEntityRiskScore (analyzeEntity address ts)

/-- A transfer between two fresh addresses, without timestamp/amount. -/
def mkPair (sig s r : String) : Tx :=
  { signature := sig,
    parsedInfo := some { sender := some s, receiver := some r } }

/-- Eleven transfers among 22 distinct addresses. -/
def c9ts : List Tx :=
  [mkPair "e01" "s01" "r01", mkPair "e02" "s02" "r02",
   mkPair "e03" "s03" "r03", mkPair "e04" "s04" "r04",
   mkPair "e05" "s05" "r05", mkPair "e06" "s06" "r06",
   mkPair "e07" "s07" "r07", mkPair "e08" "s08" "r08",
   mkPair "e09" "s09" "r09", mkPair "e10" "s10" "r10",
   mkPair "e11" "s11" "r11"]

/-- C9, counterexample: on `c9ts` the analysis sees 22 distinct
counterparties, so the claimed formula adds the +10 fan-out tier; but
`analyzeEntity` computes the risk score while `associatedAddresses` is
still empty, and reports 0. -/
theorem c9_counterexample :
    (analyzeEntity "E" c9ts).riskScore = 0 ∧
    claimedEntityRiskScore "E" c9ts = 10 ∧
    (analyzeEntity "E" c9ts).associatedAddresses.length = 22 ∧
    (0 : ℚ) ≠ 10 := by
  have hb : analyzeEntityBase "E" c9ts =
      { address := "E", type := "UNKNOWN", patterns := [], riskScore := 0,
        associatedAddresses := [], transactionCount := 11,
        totalVolume := 0, firstSeen := none, lastSeen := 0 } := by
    decide
  refine ⟨?_, ?_, by decide, by norm_num⟩
  · show calculateEntityRiskScore (analyzeEntityBase "E" c9ts) = 0
    rw [hb]
    norm_num [calculateEntityRiskScore]
  · show calculateEntityRiskScore (analyzeEntity "E" c9ts) = 10
    have h1 : (analyzeEntity "E" c9ts).totalVolume = 0 := by decide
    have h2 : (analyzeEntity "E" c9ts).firstSeen = none := by decide
    have h3 : (analyzeEntity "E" c9ts).patterns = [] := by decide
    have h4 : (analyzeEntity "E" c9ts).associatedAddresses.length = 22 := by
      decide
    unfold calculateEntityRiskScore
    rw [h1, h2, h3, h4]
    norm_num

/-- `calculateEntityRiskScore` is nonnegative and at most 100: every tier
is nonnegative and the sum is min-capped at 100. -/
theorem calculateEntityRiskScore_bounds (a : EntityAnalysis) :
    0 ≤ calculateEntityRiskScore a ∧ calculateEntityRiskScore a ≤ 100 := by
  have hpat : ∀ (l : List EntityPattern) (s : ℚ), 0 ≤ s →
      0 ≤ l.foldl (fun s p =>
        if p.type == "HIGH_RISK" then s + 30
        else if p.type == "MEDIUM_RISK" then s + 15 else s) s := by
    intro l
    induction l with
    | nil => intro s hs; exact hs
    | cons p l ih =>
      intro s hs
      rw [List.foldl_cons]
      refine ih _ ?_
      split_ifs <;> linarith
  unfold calculateEntityRiskScore
  constructor
  · refine le_min ?_ (by norm_num)
    have h1 : (0:ℚ) ≤ if 1000 < a.totalVolume then 20
        else if 100 < a.totalVolume then 10 else 0 := by
      split_ifs <;> norm_num
    have h2 : (0:ℚ) ≤ (match a.firstSeen with
        | none => 0
        | some fs =>
          if a.lastSeen - fs = 0 then
            (if 0 < a.transactionCount then 20 else 0)
          else if 0 < a.lastSeen - fs then
            if 50 < (a.transactionCount : ℚ) / ((a.lastSeen - fs) / 86400)
              then 20
            else if 20 < (a.transactionCount : ℚ) /
                ((a.lastSeen - fs) / 86400) then 10 else 0
          else 0 : ℚ) := by
      match a.firstSeen with
      | none => norm_num
      | some fs => dsimp only; split_ifs <;> norm_num
    have h3 : (0:ℚ) ≤ a.patterns.foldl (fun s p =>
        if p.type == "HIGH_RISK" then s + 30
        else if p.type == "MEDIUM_RISK" then s + 15 else s) 0 :=
      hpat a.patterns 0 le_rfl
    have h4 : (0:ℚ) ≤ if 50 < a.associatedAddresses.length then 20
        else if 20 < a.associatedAddresses.length then 10 else 0 := by
      split_ifs <;> norm_num
    linarith
  · exact min_le_right _ _

/-- C9, amended: `analyzeEntity`'s risk score is the volume tier plus the
frequency tier plus the flagged-pattern bonus plus the fan-out tier, all
clamped to [0, 100] — but the fan-out tier is evaluated on the analysis
record **before** `associatedAddresses` is populated, so it always
contributes 0: the score equals the risk formula applied to the pre-risk
analysis record, whose associated-address list is still empty. -/
theorem c9_entity_risk (address : String) (ts : List Tx) :
    (analyzeEntity address ts).riskScore =
      calculateEntityRiskScore (analyzeEntityBase address ts) ∧
    (analyzeEntityBase address ts).associatedAddresses = [] ∧
    0 ≤ (analyzeEntity address ts).riskScore ∧
    (analyzeEntity address ts).riskScore ≤ 100 := by
  refine ⟨rfl, rfl, ?_, ?_⟩
  · exact (calculateEntityRiskScore_bounds (analyzeEntityBase address ts)).1
  · exact (calculateEntityRiskScore_bounds (analyzeEntityBase address ts)).2
